import Mathlib

/-!
Verification of the libxsql virtual-table framework (src/include/xsql/vtable.hpp)
against its natural-language specification.

The C++ header is shallowly embedded: each SQLite callback becomes a pure Lean
function over an explicit cursor/cache state.  Engine values (`sqlite3_value`)
are modelled by an inductive `SqlValue`; C++ `double` cost fields are modelled
by `Rat` (the planner only assigns and compares costs, so rational arithmetic
is exact on every representable double); `size_t` casts are taken modulo 2^64.
User callbacks (`std::function` fields) are modelled as Lean functions; where a
claim is about *whether* a user callback is invoked, the embedding returns an
explicit outcome/trace instead of silently evaluating the callback.
-/

namespace XSql

/-- Engine dynamic value (`sqlite3_value`), restricted to the shapes the
claims exercise: NULL, 64-bit integers and text. -/
inductive SqlValue where
  | null
  | int (v : Int)
  | text (s : String)
deriving DecidableEq

instance : Inhabited SqlValue := ⟨SqlValue.null⟩

/-- `sqlite3_value_int64`: NULL coerces to 0; text-to-int coercion is modelled
as 0 (no claim feeds text where an int64 is read). -/
def value_int64 : SqlValue → Int
  | SqlValue.null => 0
  | SqlValue.int v => v
  | SqlValue.text _ => 0

/-- `sqlite3_value_type(v) == SQLITE_NULL`. -/
def value_is_null : SqlValue → Bool
  | SqlValue.null => true
  | _ => false

/-- `static_cast<size_t>` of a signed 64-bit value (two's complement wrap). -/
def toSizeT (v : Int) : Nat := (v % (2 : Int) ^ 64).toNat

/-- `FILTER_NONE` (vtable.hpp:144). -/
def FILTER_NONE : Int := 0

/-- `INDEX_BASE` (vtable.hpp:147). -/
def INDEX_BASE : Int := 1000

/-- `SQLITE_INDEX_CONSTRAINT_EQ` from the SQLite ABI. -/
def SQLITE_INDEX_CONSTRAINT_EQ : Nat := 2

-- ============================================================================
-- Registration and identifier validation (vtable.hpp:529-564)
-- ============================================================================

/-- `is_valid_sql_identifier` (vtable.hpp:545-551): non-empty and every
character alphanumeric (C locale `isalnum`, i.e. ASCII) or underscore. -/
def is_valid_sql_identifier (name : String) : Bool :=
  !name.data.isEmpty && name.data.all (fun c => c.isAlphanum || c == '_')

/-- Result of `create_vtable`: the returned Bool and the list of SQL texts
handed to `sqlite3_exec` (used to state "no SQL is formed or executed"). -/
structure CreateVtabResult where
  ok : Bool
  executed_sql : List String
deriving DecidableEq

/-- `create_vtable` (vtable.hpp:553-564).  `exec_ok` models the return code of
`sqlite3_exec` on the assembled statement (the engine is external). -/
def create_vtable (exec_ok : Bool) (table_name module_name : String) :
    CreateVtabResult :=
  if !is_valid_sql_identifier table_name || !is_valid_sql_identifier module_name then
    { ok := false, executed_sql := [] }
  else
    { ok := exec_ok
      executed_sql :=
        ["CREATE VIRTUAL TABLE " ++ table_name ++ " USING " ++ module_name ++ ";"] }

/-- `register_vtable` (vtable.hpp:529-542).  Null pointers are modelled by
`db_nonnull`/`def_nonnull` flags and an `Option` module name; `clone_ok` models
the `new (std::nothrow)` clone and `engine_ok` the `sqlite3_create_module_v2`
return code.  The second component lists SQL texts executed (the source calls
no SQL-executing API here, so it is always empty). -/
def register_vtable (db_nonnull : Bool) (module_name : Option String)
    (def_nonnull : Bool) (clone_ok : Bool) (engine_ok : Bool) :
    Bool × List String :=
  if !db_nonnull || module_name.isNone || !def_nonnull then (false, [])
  else if !clone_ok then (false, [])
  else if !engine_ok then (false, [])
  else (true, [])

-- ============================================================================
-- Row iterator contract (vtable.hpp:122-137)
-- ============================================================================

/-- Pure model of a `RowIterator` implementation over iterator states `σ`:
`next` returns (has-row, new state), `eof` and `rowid` read the state.
The `column` method is not modelled as a function; column access records
*that* the iterator's column method was invoked (see the outcome types). -/
structure RowIter (σ : Type) where
  next : σ → Bool × σ
  eof : σ → Bool
  rowid : σ → Int

-- ============================================================================
-- Live flavor: definition, cursor and callbacks (vtable.hpp:95-498)
-- ============================================================================

/-- `ColumnDef` (vtable.hpp:95-110).  The getter is not stored as a function:
column access returns an outcome naming the argument it would be called with.
The setter is stored (its Bool result drives the UPDATE dispatch). -/
structure ColumnDef where
  name : String
  writable : Bool
  set : Option (Nat → SqlValue → Bool)

/-- `FilterDef` (vtable.hpp:156-169), parameterized by the iterator state type
produced by the factory; a `none` result models a factory returning null. -/
structure FilterDef (σ : Type) where
  column_index : Int
  filter_id : Int
  estimated_cost : Rat
  estimated_rows : Rat
  create : SqlValue → Option σ

/-- `VTableDef` (vtable.hpp:175-229).  `row_count` holds the value the
authoritative row-count callback returns when invoked (invocations are counted
by the traced callbacks); `estimate_rows`/hooks model the optional
`std::function` fields, `none` meaning unset. -/
structure VTableDef (σ : Type) where
  name : String
  row_count : Nat
  estimate_rows : Option Nat
  columns : List ColumnDef
  filters : List (FilterDef σ)
  delete_row : Option (Nat → Bool)
  supports_delete : Bool
  insert_row : Option (List SqlValue → Bool)
  supports_insert : Bool
  before_modify : Bool

/-- `VTableDef::find_column` (vtable.hpp:215-220): index of the first column
with the given name, -1 if absent. -/
def VTableDef.find_column {σ : Type} (d : VTableDef σ) (col_name : String) : Int :=
  match d.columns.findIdx? (fun c => c.name == col_name) with
  | some i => (i : Int)
  | none => -1

/-- `VTableDef::find_filter` (vtable.hpp:223-228): first filter whose
`column_index` matches, if any. -/
def VTableDef.find_filter {σ : Type} (d : VTableDef σ) (col_index : Int) :
    Option (FilterDef σ) :=
  d.filters.find? (fun f => f.column_index == col_index)

/-- `Cursor` (vtable.hpp:240-252).  `iter = none` models a null iterator
pointer; `iter = some s` a live iterator in state `s`. -/
structure Cursor (σ : Type) where
  idx : Nat
  total : Nat
  iter : Option σ
  using_iterator : Bool
  iterator_eof : Bool
deriving DecidableEq

/-- `vtab_open` cursor initialization (vtable.hpp:276-288). -/
def vtab_open {σ : Type} : Cursor σ :=
  { idx := 0, total := 0, iter := none, using_iterator := false,
    iterator_eof := false }

/-- `vtab_next` (vtable.hpp:297-307): in iterator mode call `next()` and latch
`iterator_eof` when it returns false; otherwise advance the integer index. -/
def vtab_next {σ : Type} (it : RowIter σ) (c : Cursor σ) : Cursor σ :=
  if c.using_iterator then
    match c.iter with
    | some s =>
      let r := it.next s
      { c with iter := some r.2,
               iterator_eof := if r.1 then c.iterator_eof else true }
    | none => { c with idx := c.idx + 1 }
  else
    { c with idx := c.idx + 1 }

/-- `vtab_eof` (vtable.hpp:310-317). -/
def vtab_eof {σ : Type} (it : RowIter σ) (c : Cursor σ) : Bool :=
  if c.using_iterator then
    match c.iter with
    | none => true
    | some s => if c.iterator_eof then true else it.eof s
  else
    decide (c.idx ≥ c.total)

/-- Outcome of the live `xColumn` callback: either `sqlite3_result_null` was
produced without invoking user code, or the iterator's `column` method was
invoked, or the definition's column getter was invoked with the given column
and row index. -/
inductive LiveColOutcome where
  | engineNull
  | iterColumn (col : Nat)
  | defGetter (col : Nat) (idx : Nat)
deriving DecidableEq

/-- `vtab_column` (vtable.hpp:320-336). -/
def vtab_column {σ : Type} (d : VTableDef σ) (c : Cursor σ) (col : Int) :
    LiveColOutcome :=
  if col < 0 || d.columns.length ≤ (col.toNat) then
    LiveColOutcome.engineNull
  else if c.using_iterator && c.iter.isSome then
    if c.iterator_eof then LiveColOutcome.engineNull
    else LiveColOutcome.iterColumn col.toNat
  else
    LiveColOutcome.defGetter col.toNat c.idx

/-- `vtab_rowid` (vtable.hpp:339-351). -/
def vtab_rowid {σ : Type} (it : RowIter σ) (c : Cursor σ) : Int :=
  if c.using_iterator then
    match c.iter with
    | some s => if c.iterator_eof then 0 else it.rowid s
    | none => (c.idx : Int)
  else
    (c.idx : Int)

/-- `vtab_filter` (vtable.hpp:354-385), instrumented: the second component
counts invocations of the authoritative `row_count` callback (one per textual
call site executed — exactly the `cursor->total = cursor->def->row_count()`
line on the full-scan path). -/
def vtab_filter {σ : Type} (d : VTableDef σ) (_c : Cursor σ) (idxNum : Int)
    (argv : List SqlValue) : Cursor σ × Nat :=
  let reset : Cursor σ :=
    { iter := none, using_iterator := false, iterator_eof := false,
      idx := 0, total := 0 }
  if idxNum ≠ FILTER_NONE ∧ argv ≠ [] then
    match d.filters.find? (fun f => f.filter_id == idxNum) with
    | some filter =>
      let c1 : Cursor σ :=
        { reset with iter := filter.create (argv.headI), using_iterator := true,
                     iterator_eof := (filter.create (argv.headI)).isNone }
      (c1, 0)
    | none => ({ reset with total := d.row_count }, 1)
  else
    ({ reset with total := d.row_count }, 1)

/-- After creating the iterator, `vtab_filter` immediately calls `next()` once
(vtable.hpp:374-376) and latches on false; `vtab_filter` models the state just
before that call, and this function completes the step. -/
def vtab_filter_step {σ : Type} (it : RowIter σ) (d : VTableDef σ)
    (c : Cursor σ) (idxNum : Int) (argv : List SqlValue) : Cursor σ × Nat :=
  let r := vtab_filter d c idxNum argv
  if r.1.using_iterator ∧ r.1.iter.isSome then (vtab_next it r.1, r.2) else r

/-- One constraint slot of `sqlite3_index_info` as the planner reads it. -/
structure ConstraintInfo where
  usable : Bool
  op : Nat
  iColumn : Int

/-- The planner outputs the claims inspect: `idxNum`, cost/row estimates and
which constraint (position) received `argvIndex = 1, omit = 1`. -/
structure BestIndexOut where
  idxNum : Int
  estimatedCost : Rat
  estimatedRows : Int
  argvConstraint : Option Nat
deriving DecidableEq

/-- Truncation of a double toward zero, as `static_cast<sqlite3_int64>`. -/
def ratTruncToInt (q : Rat) : Int :=
  if q < 0 then -((-q).floor) else q.floor

/-- Loop state of `vtab_best_index` (vtable.hpp:394-413): the best filter seen
so far together with the position of its constraint. -/
def liveBestLoop {σ : Type} (d : VTableDef σ) :
    List (Nat × ConstraintInfo) → Option (FilterDef σ × Nat) →
    Option (FilterDef σ × Nat)
  | [], best => best
  | (i, con) :: rest, best =>
    if con.usable = false then liveBestLoop d rest best
    else if con.op ≠ SQLITE_INDEX_CONSTRAINT_EQ then liveBestLoop d rest best
    else
      match d.find_filter con.iColumn with
      | some filter =>
        let take : Bool :=
          match best with
          | none => true
          | some (bf, _) => decide (filter.estimated_cost < bf.estimated_cost)
        if take then liveBestLoop d rest (some (filter, i))
        else liveBestLoop d rest best
      | none => liveBestLoop d rest best

/-- `vtab_best_index` (vtable.hpp:388-435).  Note the full-scan branch reads
`estimate_rows` (default 100000) and never the authoritative `row_count`. -/
def vtab_best_index {σ : Type} (d : VTableDef σ) (cons : List ConstraintInfo) :
    BestIndexOut :=
  match liveBestLoop d cons.enum none with
  | some (best_filter, i) =>
    { idxNum := best_filter.filter_id
      estimatedCost := best_filter.estimated_cost
      estimatedRows := ratTruncToInt best_filter.estimated_rows
      argvConstraint := some i }
  | none =>
    let full_count : Nat :=
      match d.estimate_rows with
      | some n => n
      | none => 100000
    { idxNum := FILTER_NONE
      estimatedCost := (full_count : Rat)
      estimatedRows := (full_count : Int)
      argvConstraint := none }

-- ============================================================================
-- Live update dispatch (vtable.hpp:438-498)
-- ============================================================================

/-- Return codes the update dispatch produces. -/
inductive Rc where
  | ok
  | error
  | readonly
deriving DecidableEq

/-- Trace of user callbacks invoked by one `vtab_update` dispatch:
`before_modify` strings in order, setter calls as (column index, rowid, value)
in invocation order, deleter calls (rowid) and inserter calls (value list). -/
structure UpdateTrace where
  before_modify : List String
  setter_calls : List (Nat × Nat × SqlValue)
  delete_calls : List Nat
  insert_calls : List (List SqlValue)
deriving DecidableEq

/-- The empty trace. -/
def UpdateTrace.empty : UpdateTrace :=
  { before_modify := [], setter_calls := [], delete_calls := [],
    insert_calls := [] }

/-- The UPDATE column loop (vtable.hpp:468-476): walk the column list and the
values `argv[2..]` in lockstep (the loop bound `i < argc && (i-2) < columns`
is the length of the zip); skip columns that are not writable or have no
setter; invoke the setter otherwise and abort with the calls made so far when
it returns false.  `cidx` is the current column index. -/
def updateLoop (cols : List ColumnDef) (args : List SqlValue) (rowid : Nat)
    (cidx : Nat) : Rc × List (Nat × Nat × SqlValue) :=
  match cols, args with
  | col :: cs, a :: rest =>
    match col.writable, col.set with
    | true, some f =>
      if f rowid a then
        let r := updateLoop cs rest rowid (cidx + 1)
        (r.1, (cidx, rowid, a) :: r.2)
      else
        (Rc.error, [(cidx, rowid, a)])
    | _, _ => updateLoop cs rest rowid (cidx + 1)
  | _, _ => (Rc.ok, [])

/-- `vtab_update` (vtable.hpp:438-498): one argument with non-null `argv[0]`
is DELETE; more than one argument dispatches on `argv[0]` null (INSERT) versus
non-null (UPDATE); everything else is the read-only rejection. -/
def vtab_update {σ : Type} (d : VTableDef σ) (argv : List SqlValue) :
    Rc × UpdateTrace :=
  match argv with
  | [a0] =>
    if value_is_null a0 then
      (Rc.readonly, UpdateTrace.empty)
    else
      match d.supports_delete, d.delete_row with
      | true, some f =>
        let rowid := toSizeT (value_int64 a0)
        let bm := if d.before_modify then ["DELETE FROM " ++ d.name] else []
        let tr : UpdateTrace := ⟨bm, [], [rowid], []⟩
        if f rowid then (Rc.ok, tr) else (Rc.error, tr)
      | _, _ => (Rc.readonly, UpdateTrace.empty)
  | a0 :: _a1 :: rest =>
    if !value_is_null a0 then
      let rowid := toSizeT (value_int64 a0)
      let bm := if d.before_modify then ["UPDATE " ++ d.name] else []
      let r := updateLoop d.columns rest rowid 0
      (r.1, ⟨bm, r.2, [], []⟩)
    else
      match d.supports_insert, d.insert_row with
      | true, some f =>
        let bm := if d.before_modify then ["INSERT INTO " ++ d.name] else []
        let tr : UpdateTrace := ⟨bm, [], [], [rest]⟩
        if f rest then (Rc.ok, tr) else (Rc.error, tr)
      | _, _ => (Rc.readonly, UpdateTrace.empty)
  | [] => (Rc.readonly, UpdateTrace.empty)

-- ============================================================================
-- Cached flavor: shared cache, definition, cursor, callbacks
-- (vtable.hpp:814-1211)
-- ============================================================================

/-- `CachedColumnDef` (vtable.hpp:815-826), getters recorded via outcomes. -/
structure CachedColumnDef where
  name : String
  writable : Bool

/-- `SharedCache<Row>` (vtable.hpp:836-842).  Each `unordered_map<int64_t,
vector<size_t>>` is modelled as an association list from key to the list of
row positions; lookup order over keys is irrelevant to `find`. -/
structure SharedCache (Row : Type) where
  data : List Row
  indexes : List (List (Int × List Nat))
  built : Bool
deriving DecidableEq

/-- `CachedTableDef<Row>` minus the mutable `shared_cache` handle, which the
callbacks below thread explicitly as a `SharedCache Row` state.  `index_defs`
pairs a column index with its key extractor (vtable.hpp:845-859). -/
structure CachedTableDef (Row : Type) (σ : Type) where
  name : String
  estimate_rows_fn : Option Nat
  cache_builder_fn : Option (List Row → List Row)
  columns : List CachedColumnDef
  filters : List (FilterDef σ)
  index_defs : List (Int × (Row → Int))

/-- `CachedTableDef::find_column` (vtable.hpp:872-877). -/
def CachedTableDef.find_column {Row σ : Type} (d : CachedTableDef Row σ)
    (col_name : String) : Int :=
  match d.columns.findIdx? (fun c => c.name == col_name) with
  | some i => (i : Int)
  | none => -1

/-- `CachedTableDef::find_filter` (vtable.hpp:879-884). -/
def CachedTableDef.find_filter {Row σ : Type} (d : CachedTableDef Row σ)
    (col_index : Int) : Option (FilterDef σ) :=
  d.filters.find? (fun f => f.column_index == col_index)

/-- `CachedTableDef::find_index` (vtable.hpp:887-892): position of the first
index definition on the column, if any. -/
def CachedTableDef.find_index {Row σ : Type} (d : CachedTableDef Row σ)
    (col_index : Int) : Option Nat :=
  d.index_defs.findIdx? (fun e => e.1 == col_index)

/-- `index_map[key].push_back(row)`: append `row` to the entry for `key`,
creating the entry when absent (vtable.hpp:914). -/
def indexInsert (m : List (Int × List Nat)) (key : Int) (row : Nat) :
    List (Int × List Nat) :=
  match m with
  | [] => [(key, [row])]
  | (k, rows) :: rest =>
    if k = key then (k, rows ++ [row]) :: rest
    else (k, rows) :: indexInsert rest key row

/-- `find` on a modelled index map: the matching row-position list, if any. -/
def indexFind (m : List (Int × List Nat)) (key : Int) : Option (List Nat) :=
  match m.find? (fun e => e.1 == key) with
  | some e => some e.2
  | none => none

/-- The inner index-build loop (vtable.hpp:912-915): insert every row of the
cache into the map under its extracted key, in row order. -/
def fillIndex {Row : Type} (key_fn : Row → Int) (data : List Row)
    (start : List (Int × List Nat)) : List (Int × List Nat) :=
  (data.enum).foldl (fun m e => indexInsert m (key_fn e.2) e.1) start

/-- `indexes.resize(n)` (vtable.hpp:908): keep the first `n` maps, pad with
empty maps. -/
def resizeIndexes (idxs : List (List (Int × List Nat))) (n : Nat) :
    List (List (Int × List Nat)) :=
  idxs.take n ++ List.replicate (n - idxs.length) []

/-- `CachedTableDef::ensure_cache_built` (vtable.hpp:895-919), instrumented:
returns the new cache state, the number of `cache_builder_fn` invocations and
the number of key-extractor invocations performed by this call (the build loop
calls the extractor once per index definition per cached row). -/
def ensure_cache_built_traced {Row σ : Type} (d : CachedTableDef Row σ)
    (sc : SharedCache Row) : SharedCache Row × Nat × Nat :=
  if sc.built then (sc, 0, 0)
  else
    let data :=
      match d.cache_builder_fn with
      | some f => f sc.data
      | none => sc.data
    let builder_calls :=
      match d.cache_builder_fn with
      | some _ => 1
      | none => 0
    let base := resizeIndexes sc.indexes d.index_defs.length
    let indexes := (d.index_defs.zip base).map (fun e => fillIndex e.1.2 data e.2)
    (⟨data, indexes, true⟩, builder_calls, d.index_defs.length * data.length)

/-- `ensure_cache_built`, state only. -/
def ensure_cache_built {Row σ : Type} (d : CachedTableDef Row σ)
    (sc : SharedCache Row) : SharedCache Row :=
  (ensure_cache_built_traced d sc).1

/-- `CachedTableDef::invalidate_cache` (vtable.hpp:922-929): clear rows and
indexes, reset `built` (the shared-cache handle always exists after
`build()`, vtable.hpp:1384-1386). -/
def invalidate_cache {Row : Type} (_sc : SharedCache Row) : SharedCache Row :=
  ⟨[], [], false⟩

/-- `CachedCursor` (vtable.hpp:932-947).  `index_matches` copies the matched
row-position list (the C++ stores a pointer into the cache, stable while
`built` holds). -/
structure CachedCursor (Row : Type) (σ : Type) where
  cache : List Row
  current_row : Nat
  iterator : Option σ
  using_iterator : Bool
  iterator_eof : Bool
  using_index : Bool
  index_matches : Option (List Nat)
  index_pos : Nat
deriving DecidableEq

/-- `cached_vtab_open` cursor initialization (vtable.hpp:975-988). -/
def cached_vtab_open {Row σ : Type} : CachedCursor Row σ :=
  { cache := [], current_row := 0, iterator := none, using_iterator := false,
    iterator_eof := false, using_index := false, index_matches := none,
    index_pos := 0 }

/-- `cached_vtab_next` (vtable.hpp:996-1009). -/
def cached_vtab_next {Row σ : Type} (it : RowIter σ) (c : CachedCursor Row σ) :
    CachedCursor Row σ :=
  if c.using_iterator then
    match c.iterator with
    | some s =>
      let r := it.next s
      { c with iterator := some r.2,
               iterator_eof := if r.1 then c.iterator_eof else true }
    | none =>
      if c.using_index then { c with index_pos := c.index_pos + 1 }
      else { c with current_row := c.current_row + 1 }
  else if c.using_index then
    { c with index_pos := c.index_pos + 1 }
  else
    { c with current_row := c.current_row + 1 }

/-- `cached_vtab_eof` (vtable.hpp:1011-1027); `sc` is the shared cache the
cursor's definition points at. -/
def cached_vtab_eof {Row σ : Type} (it : RowIter σ) (sc : SharedCache Row)
    (c : CachedCursor Row σ) : Bool :=
  if c.using_iterator then
    match c.iterator with
    | none => true
    | some s => if c.iterator_eof then true else it.eof s
  else if c.using_index then
    match c.index_matches with
    | none => true
    | some ms => decide (c.index_pos ≥ ms.length)
  else if sc.built then
    decide (c.current_row ≥ sc.data.length)
  else
    decide (c.current_row ≥ c.cache.length)

/-- Outcome of the cached `xColumn` callback. -/
inductive CachedColOutcome (Row : Type) where
  | engineNull
  | iterColumn (col : Nat)
  | defGetter (col : Nat) (row : Row)
deriving DecidableEq

/-- `cached_vtab_column` (vtable.hpp:1029-1067). -/
def cached_vtab_column {Row σ : Type} (d : CachedTableDef Row σ)
    (sc : SharedCache Row) (c : CachedCursor Row σ) (col : Int) :
    CachedColOutcome Row :=
  if col < 0 || d.columns.length ≤ col.toNat then
    CachedColOutcome.engineNull
  else if c.using_iterator && c.iterator.isSome then
    if c.iterator_eof then CachedColOutcome.engineNull
    else CachedColOutcome.iterColumn col.toNat
  else if c.using_index then
    match c.index_matches with
    | some ms =>
      match ms[c.index_pos]? with
      | some row_idx =>
        match sc.data[row_idx]? with
        | some row => CachedColOutcome.defGetter col.toNat row
        | none => CachedColOutcome.engineNull
      | none => CachedColOutcome.engineNull
    | none => CachedColOutcome.engineNull
  else
    if sc.built then
      match sc.data[c.current_row]? with
      | some row => CachedColOutcome.defGetter col.toNat row
      | none =>
        match c.cache[c.current_row]? with
        | some row => CachedColOutcome.defGetter col.toNat row
        | none => CachedColOutcome.engineNull
    else
      match c.cache[c.current_row]? with
      | some row => CachedColOutcome.defGetter col.toNat row
      | none => CachedColOutcome.engineNull

/-- `cached_vtab_rowid` (vtable.hpp:1069-1082): in iterator mode the
iterator's rowid (0 once latched); otherwise `current_row` — in index mode
the match-list position `index_pos` is *not* consulted. -/
def cached_vtab_rowid {Row σ : Type} (it : RowIter σ) (c : CachedCursor Row σ) :
    Int :=
  if c.using_iterator then
    match c.iterator with
    | some s => if c.iterator_eof then 0 else it.rowid s
    | none => (c.current_row : Int)
  else
    (c.current_row : Int)

-- ============================================================================
-- Cached flavor: filter and planner (vtable.hpp:1084-1211)
-- ============================================================================

/-- The cursor state right after the filter path stores the created iterator
(vtable.hpp:1129-1131): the reset state with `iterator := created`,
`using_iterator := true` and the latch set when the factory returned null. -/
def cached_filter_start {Row σ : Type} (created : Option σ) :
    CachedCursor Row σ :=
  { cache := [], current_row := 0, iterator := created,
    using_iterator := true, iterator_eof := created.isNone,
    using_index := false, index_matches := none, index_pos := 0 }

/-- The filter-lookup loop plus full-scan fallthrough of `cached_vtab_filter`
(vtable.hpp:1127-1145): find the filter with id `idxNum`; if found, create
its iterator on argv[0] and call `next()` once (latching on a null iterator
or a false `next()`); otherwise fall through to a full scan over the ensured
shared cache. -/
def cached_filter_filterPath {Row σ : Type} (it : RowIter σ)
    (d : CachedTableDef Row σ) (idxNum : Int) (argv : List SqlValue)
    (sc0 : SharedCache Row) : CachedCursor Row σ × SharedCache Row :=
  match d.filters.find? (fun f => f.filter_id == idxNum) with
  | some filter =>
    let c1 : CachedCursor Row σ := cached_filter_start (filter.create (argv.headI))
    (if c1.iterator.isSome then cached_vtab_next it c1 else c1, sc0)
  | none => (cached_vtab_open, ensure_cache_built d sc0)

/-- `cached_vtab_filter` (vtable.hpp:1084-1146): returns the new cursor and
the new shared-cache state.  Index path: ensure the cache is built, look the
key up in index `idxNum - INDEX_BASE`; filter path: create the iterator and
call `next()` once; otherwise full scan over the (ensured) shared cache. -/
def cached_vtab_filter {Row σ : Type} (it : RowIter σ)
    (d : CachedTableDef Row σ) (sc : SharedCache Row)
    (_c : CachedCursor Row σ) (idxNum : Int) (argv : List SqlValue) :
    CachedCursor Row σ × SharedCache Row :=
  let reset : CachedCursor Row σ := cached_vtab_open
  let filterPath : SharedCache Row → CachedCursor Row σ × SharedCache Row :=
    cached_filter_filterPath it d idxNum argv
  if idxNum ≠ FILTER_NONE ∧ argv ≠ [] then
    if idxNum ≥ INDEX_BASE then
      let index_pos := (idxNum - INDEX_BASE).toNat
      if (idxNum - INDEX_BASE) ≥ 0 ∧ index_pos < d.index_defs.length then
        let sc1 := ensure_cache_built d sc
        if sc1.built ∧ index_pos < sc1.indexes.length then
          let key := value_int64 (argv.headI)
          match sc1.indexes[index_pos]? with
          | some m =>
            match indexFind m key with
            | some ms =>
              ({ reset with using_index := true, index_matches := some ms,
                            index_pos := 0 }, sc1)
            | none =>
              ({ reset with using_index := true, index_matches := none }, sc1)
          | none => filterPath sc1
        else filterPath sc1
      else filterPath sc
    else filterPath sc
  else (reset, ensure_cache_built d sc)

/-- The selection loop of `cached_vtab_best_index` (vtable.hpp:1160-1185):
fold over the numbered constraints tracking the best filter (with its
constraint position), the best index (position and constraint position) and
the running `best_cost`, exactly as the source's three locals. -/
def cachedBestLoop {Row σ : Type} (d : CachedTableDef Row σ) :
    List (Nat × ConstraintInfo) →
    Option (FilterDef σ × Nat) → Option (Nat × Nat) → Rat →
    Option (FilterDef σ × Nat) × Option (Nat × Nat) × Rat
  | [], bf, bi, bc => (bf, bi, bc)
  | (i, con) :: rest, bf, bi, bc =>
    if con.usable = false then cachedBestLoop d rest bf bi bc
    else if con.op ≠ SQLITE_INDEX_CONSTRAINT_EQ then cachedBestLoop d rest bf bi bc
    else
      let afterFilter : Option (FilterDef σ × Nat) × Rat :=
        match d.find_filter con.iColumn with
        | some filter =>
          if filter.estimated_cost < bc then (some (filter, i), filter.estimated_cost)
          else (bf, bc)
        | none => (bf, bc)
      let bf1 := afterFilter.1
      let bc1 := afterFilter.2
      match d.find_index con.iColumn with
      | some idx_pos =>
        if (1 : Rat) < bc1 then
          cachedBestLoop d rest none (some (idx_pos, i)) 1
        else
          cachedBestLoop d rest bf1 bi bc1
      | none => cachedBestLoop d rest bf1 bi bc1

/-- `cached_vtab_best_index` (vtable.hpp:1148-1211). -/
def cached_vtab_best_index {Row σ : Type} (d : CachedTableDef Row σ)
    (cons : List ConstraintInfo) : BestIndexOut :=
  let r := cachedBestLoop d cons.enum none none 1000000000
  match r.2.1 with
  | some (best_index_pos, i) =>
    { idxNum := INDEX_BASE + (best_index_pos : Int)
      estimatedCost := 1
      estimatedRows := 5
      argvConstraint := some i }
  | none =>
    match r.1 with
    | some (best_filter, i) =>
      { idxNum := best_filter.filter_id
        estimatedCost := best_filter.estimated_cost
        estimatedRows := ratTruncToInt best_filter.estimated_rows
        argvConstraint := some i }
    | none =>
      let estimated_rows : Nat :=
        match d.estimate_rows_fn with
        | some n => n
        | none => 1000
      { idxNum := FILTER_NONE
        estimatedCost := (estimated_rows : Rat)
        estimatedRows := (estimated_rows : Int)
        argvConstraint := none }

-- ============================================================================
-- Generator flavor (vtable.hpp:1409-1623)
-- ============================================================================

/-- Pure model of a `Generator<Row>` implementation over states `γ`
(vtable.hpp:1410-1422). -/
structure GenOps (Row : Type) (γ : Type) where
  next : γ → Bool × γ
  current : γ → Row
  rowid : γ → Int

/-- `GeneratorCursor` (vtable.hpp:1458-1467). -/
structure GeneratorCursor (γ : Type) (σ : Type) where
  generator : Option γ
  generator_eof : Bool
  iterator : Option σ
  using_iterator : Bool
  iterator_eof : Bool
deriving DecidableEq

/-- `generator_vtab_open` cursor initialization (vtable.hpp:1495-1508). -/
def generator_vtab_open {γ σ : Type} : GeneratorCursor γ σ :=
  { generator := none, generator_eof := false, iterator := none,
    using_iterator := false, iterator_eof := false }

/-- `generator_vtab_next` (vtable.hpp:1516-1529). -/
def generator_vtab_next {Row γ σ : Type} (g : GenOps Row γ) (it : RowIter σ)
    (c : GeneratorCursor γ σ) : GeneratorCursor γ σ :=
  if c.using_iterator && c.iterator.isSome then
    match c.iterator with
    | some s =>
      let r := it.next s
      { c with iterator := some r.2,
               iterator_eof := if r.1 then c.iterator_eof else true }
    | none => c
  else
    match c.generator with
    | none => { c with generator_eof := true }
    | some s =>
      let r := g.next s
      { c with generator := some r.2,
               generator_eof := if r.1 then c.generator_eof else true }

/-- `generator_vtab_eof` (vtable.hpp:1531-1539). -/
def generator_vtab_eof {γ σ : Type} (it : RowIter σ)
    (c : GeneratorCursor γ σ) : Bool :=
  if c.using_iterator then
    match c.iterator with
    | none => true
    | some s => if c.iterator_eof then true else it.eof s
  else
    c.generator.isNone || c.generator_eof

/-- Outcome of the generator `xColumn` callback. -/
inductive GenColOutcome where
  | engineNull
  | iterColumn (col : Nat)
  | genGetter (col : Nat)
deriving DecidableEq

/-- `generator_vtab_column` (vtable.hpp:1541-1565). -/
def generator_vtab_column {γ σ : Type} (d_ncols : Nat)
    (c : GeneratorCursor γ σ) (col : Int) : GenColOutcome :=
  if col < 0 || d_ncols ≤ col.toNat then GenColOutcome.engineNull
  else if c.using_iterator && c.iterator.isSome then
    if c.iterator_eof then GenColOutcome.engineNull
    else GenColOutcome.iterColumn col.toNat
  else if c.generator.isNone || c.generator_eof then GenColOutcome.engineNull
  else GenColOutcome.genGetter col.toNat

-- ============================================================================
-- Builders (vtable.hpp:570-777, 1268-1393)
-- ============================================================================

namespace VTableBuilder

/-- `xsql::table(name)` → fresh builder state (vtable.hpp:573-576, 775-777). -/
def table (σ : Type) (name : String) : VTableDef σ :=
  { name := name, row_count := 0, estimate_rows := none, columns := [],
    filters := [], delete_row := none, supports_delete := false,
    insert_row := none, supports_insert := false, before_modify := false }

/-- `VTableBuilder::column_int64` (vtable.hpp:596-603): appends a read-only
column with no setter. -/
def column_int64 {σ : Type} (d : VTableDef σ) (name : String) : VTableDef σ :=
  { d with columns := d.columns ++ [⟨name, false, none⟩] }

/-- `VTableBuilder::column_int64_rw` (vtable.hpp:606-617): appends a writable
column carrying a setter. -/
def column_int64_rw {σ : Type} (d : VTableDef σ) (name : String)
    (setter : Nat → SqlValue → Bool) : VTableDef σ :=
  { d with columns := d.columns ++ [⟨name, true, some setter⟩] }

/-- `VTableBuilder::filter_eq` (vtable.hpp:727-748): silently returns the
definition unchanged when the column is absent; otherwise appends a filter
with id `filters.size() + 1`. -/
def filter_eq {σ : Type} (d : VTableDef σ) (column_name : String)
    (factory : Int → Option σ) (cost : Rat) (est_rows : Rat) : VTableDef σ :=
  let col_idx := d.find_column column_name
  if col_idx < 0 then d
  else
    let filter_id : Int := (d.filters.length : Int) + 1
    { d with filters := d.filters ++
        [⟨col_idx, filter_id, cost, est_rows, fun v => factory (value_int64 v)⟩] }

/-- `sqlite3_value_text` then `text ? text : ""` as used by the text filter
factories (vtable.hpp:765-766). -/
def value_text : SqlValue → String
  | SqlValue.text s => s
  | SqlValue.int _ => ""
  | SqlValue.null => ""

/-- `VTableBuilder::filter_eq_text` (vtable.hpp:753-770). -/
def filter_eq_text {σ : Type} (d : VTableDef σ) (column_name : String)
    (factory : String → Option σ) (cost : Rat) (est_rows : Rat) : VTableDef σ :=
  let col_idx := d.find_column column_name
  if col_idx < 0 then d
  else
    let filter_id : Int := (d.filters.length : Int) + 1
    { d with filters := d.filters ++
        [⟨col_idx, filter_id, cost, est_rows, fun v => factory (value_text v)⟩] }

end VTableBuilder

namespace CachedTableBuilder

/-- `xsql::cached_table<Row>(name)` → fresh builder state (vtable.hpp:1272-1275,
1390-1393). -/
def cached_table (Row σ : Type) (name : String) : CachedTableDef Row σ :=
  { name := name, estimate_rows_fn := none, cache_builder_fn := none,
    columns := [], filters := [], index_defs := [] }

/-- `CachedTableBuilder::cache_builder` (vtable.hpp:1282-1285). -/
def cache_builder {Row σ : Type} (d : CachedTableDef Row σ)
    (fn : List Row → List Row) : CachedTableDef Row σ :=
  { d with cache_builder_fn := some fn }

/-- `CachedTableBuilder::column_int64` (vtable.hpp:1292-1298). -/
def column_int64 {Row σ : Type} (d : CachedTableDef Row σ) (name : String) :
    CachedTableDef Row σ :=
  { d with columns := d.columns ++ [⟨name, false⟩] }

/-- `CachedTableBuilder::filter_eq` (vtable.hpp:1334-1345). -/
def filter_eq {Row σ : Type} (d : CachedTableDef Row σ) (column_name : String)
    (factory : Int → Option σ) (cost : Rat) (est_rows : Rat) :
    CachedTableDef Row σ :=
  let col_idx := d.find_column column_name
  if col_idx < 0 then d
  else
    let filter_id : Int := (d.filters.length : Int) + 1
    { d with filters := d.filters ++
        [⟨col_idx, filter_id, cost, est_rows, fun v => factory (value_int64 v)⟩] }

/-- `CachedTableBuilder::filter_eq_text` (vtable.hpp:1347-1359). -/
def filter_eq_text {Row σ : Type} (d : CachedTableDef Row σ)
    (column_name : String) (factory : String → Option σ) (cost : Rat)
    (est_rows : Rat) : CachedTableDef Row σ :=
  let col_idx := d.find_column column_name
  if col_idx < 0 then d
  else
    let filter_id : Int := (d.filters.length : Int) + 1
    { d with filters := d.filters ++
        [⟨col_idx, filter_id, cost, est_rows,
          fun v => factory (VTableBuilder.value_text v)⟩] }

/-- `CachedTableBuilder::index_on` (vtable.hpp:1375-1381): silently ignored
when the column is absent. -/
def index_on {Row σ : Type} (d : CachedTableDef Row σ) (column_name : String)
    (key_extractor : Row → Int) : CachedTableDef Row σ :=
  let col_idx := d.find_column column_name
  if col_idx < 0 then d
  else { d with index_defs := d.index_defs ++ [(col_idx, key_extractor)] }

end CachedTableBuilder

-- ============================================================================
-- Helper predicates and concrete instances used to settle the claims
-- ============================================================================

/-- Result of re-running column `e.1`'s setter on the recorded arguments of a
setter-trace entry `e`, with `k` the column-index offset of the sub-list
`cols`; `none` when the column is absent or has no setter. -/
def setterOutcomeAt (cols : List ColumnDef) (k : Nat)
    (e : Nat × Nat × SqlValue) : Option Bool :=
  match cols[e.1 - k]? with
  | some col =>
    match col.set with
    | some f => some (f e.2.1 e.2.2)
    | none => none
  | none => none

/-- Column `i` exists, is marked writable and carries a setter. -/
def colWritableWithSetter (cols : List ColumnDef) (i : Nat) : Bool :=
  match cols[i]? with
  | some col => col.writable && col.set.isSome
  | none => false

/-- A trivial iterator over the one-point state: `next` exhausts at once. -/
def unitIter : RowIter Unit :=
  { next := fun s => (false, s), eof := fun _ => true, rowid := fun _ => 0 }

/-- An iterator whose `next` always reports another row and whose `eof`
always reports not-exhausted. -/
def itNeverEnds : RowIter Unit :=
  { next := fun s => (true, s), eof := fun _ => false, rowid := fun _ => 0 }

/-- Same `next` as `itNeverEnds`, but an `eof` predicate that always claims
exhaustion. -/
def itEofAlways : RowIter Unit :=
  { next := fun s => (true, s), eof := fun _ => true, rowid := fun _ => 0 }

/-- The regression iterator: `next` reports exhaustion while `eof()` keeps
returning false. -/
def itFalseNext : RowIter Unit :=
  { next := fun s => (false, s), eof := fun _ => false, rowid := fun _ => 0 }

/-- A cached filter-iterator cursor positioned on a row. -/
def c2CachedCursor : CachedCursor Int Unit :=
  { cache := [], current_row := 0, iterator := some Unit.unit,
    using_iterator := true, iterator_eof := false, using_index := false,
    index_matches := none, index_pos := 0 }

/-- A generator-flavor cursor in filter-iterator mode positioned on a row. -/
def c2GenCursor : GeneratorCursor Unit Unit :=
  { generator := none, generator_eof := false, iterator := some Unit.unit,
    using_iterator := true, iterator_eof := false }

/-- A trivial generator over the one-point state. -/
def genUnit : GenOps Int Unit :=
  { next := fun s => (false, s), current := fun _ => 0, rowid := fun _ => 0 }

/-- Live definition with one filter (id 1) whose factory yields a live
iterator state. -/
def c2Def : VTableDef Unit :=
  { name := "t", row_count := 0, estimate_rows := none,
    columns := [⟨"c", false, none⟩],
    filters := [⟨0, 1, 10, 10, fun _ => some Unit.unit⟩],
    delete_row := none, supports_delete := false, insert_row := none,
    supports_insert := false, before_modify := false }

/-- Live cursor in filter-iterator mode, positioned on a row (the state
`vtab_filter` plus its initial `next()` produces for `c2Def` with
`itNeverEnds` or `itEofAlways`). -/
def c2Cursor : Cursor Unit :=
  { idx := 0, total := 0, iter := some Unit.unit, using_iterator := true,
    iterator_eof := false }

/-- Live definition with one column and an authoritative row count of 1. -/
def c3Def : VTableDef Unit :=
  { name := "t", row_count := 1, estimate_rows := none,
    columns := [⟨"c", false, none⟩],
    filters := [], delete_row := none, supports_delete := false,
    insert_row := none, supports_insert := false, before_modify := false }

/-- Full-scan cursor over `c3Def` after one advance: position 1 of 1, so the
eof callback reports exhausted. -/
def c3Cursor : Cursor Unit :=
  vtab_next unitIter (vtab_filter c3Def vtab_open 0 []).1

/-- A cached-flavor filter on column 0 whose estimated cost is exactly the
planner's fixed index cost 1.0. -/
def c1Filter : FilterDef Unit :=
  { column_index := 0, filter_id := 1, estimated_cost := 1,
    estimated_rows := 10, create := fun _ => none }

/-- Cached definition with both `c1Filter` and a hash index on column 0. -/
def c1Def : CachedTableDef Int Unit :=
  { name := "t", estimate_rows_fn := none, cache_builder_fn := none,
    columns := [⟨"c", false⟩], filters := [c1Filter],
    index_defs := [(0, fun r => r)] }

/-- Cached definition whose builder yields two rows with equal index key 5 on
the indexed column 0. -/
def c5Def : CachedTableDef Int Unit :=
  { name := "t", estimate_rows_fn := none,
    cache_builder_fn := some (fun _ => [5, 5]),
    columns := [⟨"c", false⟩], filters := [],
    index_defs := [(0, fun r => r)] }

/-- Cursor and cache state after an IndexLookup `filter` call on `c5Def` with
key 5 (`idxNum = INDEX_BASE`). -/
def c5Run : CachedCursor Int Unit × SharedCache Int :=
  cached_vtab_filter unitIter c5Def ⟨[], [], false⟩ cached_vtab_open
    INDEX_BASE [SqlValue.int 5]

/-- The `c5Run` cursor advanced once: positioned on entry 1 of the match
list. -/
def c5Cursor1 : CachedCursor Int Unit :=
  cached_vtab_next unitIter c5Run.1

/-- Live filter-iterator cursor whose eof latch is set. -/
def c3TermIterCursor : Cursor Unit :=
  { idx := 0, total := 0, iter := some Unit.unit, using_iterator := true,
    iterator_eof := true }

/-- A built shared cache with two rows and one index. -/
def c3Shared : SharedCache Int :=
  { data := [5, 5], indexes := [[(5, [0, 1])]], built := true }

/-- Cached filter-iterator cursor whose eof latch is set. -/
def c3CachedIterCursor : CachedCursor Int Unit :=
  { cache := [], current_row := 0, iterator := some Unit.unit,
    using_iterator := true, iterator_eof := true, using_index := false,
    index_matches := none, index_pos := 0 }

/-- Cached IndexLookup cursor past the end of its match list. -/
def c3IndexCursor : CachedCursor Int Unit :=
  { cache := [], current_row := 0, iterator := none, using_iterator := false,
    iterator_eof := false, using_index := true,
    index_matches := some [0, 1], index_pos := 2 }

/-- Cached full-scan cursor past the end of the built shared cache. -/
def c3ScanCursor : CachedCursor Int Unit :=
  { cache := [], current_row := 2, iterator := none, using_iterator := false,
    iterator_eof := false, using_index := false, index_matches := none,
    index_pos := 0 }

/-- Generator stream cursor whose latch is set. -/
def c3GenCursor : GeneratorCursor Unit Unit :=
  { generator := some Unit.unit, generator_eof := true, iterator := none,
    using_iterator := false, iterator_eof := false }

/-- Generator-flavor filter-iterator cursor whose eof latch is set. -/
def c3GenIterCursor : GeneratorCursor Unit Unit :=
  { generator := none, generator_eof := false, iterator := some Unit.unit,
    using_iterator := true, iterator_eof := true }

/-- Live definition with three writable columns whose setters accept, reject
and accept respectively, and a `before_modify` hook. -/
def c6Def : VTableDef Unit :=
  { name := "t", row_count := 0, estimate_rows := none,
    columns := [⟨"x", true, some (fun _ _ => true)⟩,
                ⟨"y", true, some (fun _ _ => false)⟩,
                ⟨"z", true, some (fun _ _ => true)⟩],
    filters := [], delete_row := none, supports_delete := false,
    insert_row := none, supports_insert := false, before_modify := true }

/-- Live definition with a single read-only column. -/
def c10Def : VTableDef Unit :=
  { name := "t", row_count := 0, estimate_rows := none,
    columns := [⟨"x", false, none⟩],
    filters := [], delete_row := none, supports_delete := false,
    insert_row := none, supports_insert := false, before_modify := false }

/-- Live builder chain registering two filters on the same column `c`. -/
def c9Def : VTableDef Unit :=
  VTableBuilder.filter_eq
    (VTableBuilder.filter_eq
      (VTableBuilder.column_int64 (VTableBuilder.table Unit "t") "c")
      "c" (fun _ => none) 10 10)
    "c" (fun _ => none) 10 10

-- ============================================================================
-- Theorems
-- ============================================================================

/-- Claim C4, counterexample: `register_vtable` performs no identifier
validation.  With non-null arguments and a successful engine call it returns
`true` for the module name `"foo; DROP TABLE t"`, which fails the
`[A-Za-z0-9_]+` check — contradicting the claim that both the registration
functions and `create_vtable` reject such names by returning false. -/
theorem C4_counterexample :
    is_valid_sql_identifier "foo; DROP TABLE t" = false ∧
    register_vtable true (some "foo; DROP TABLE t") true true true =
      (true, []) := by
  constructor
  · decide
  · decide

/-- Claim C4, amended: `create_vtable` rejects any table or module name that
fails the `[A-Za-z0-9_]+` check by returning false with no SQL formed or
executed; `register_vtable` validates only non-nullness of its arguments and
never forms or executes SQL (the module name is handed to the engine as-is). -/
theorem C4_amended (t m : String) (exec_ok : Bool) (db : Bool)
    (mn : Option String) (dn co eo : Bool)
    (h : is_valid_sql_identifier t = false ∨ is_valid_sql_identifier m = false) :
    create_vtable exec_ok t m = ⟨false, []⟩ ∧
    (register_vtable db mn dn co eo).2 = [] := by
  constructor
  · unfold create_vtable
    rcases h with h | h <;> simp [h]
  · unfold register_vtable
    split <;> try rfl
    split <;> try rfl
    split <;> rfl

/-- Witness for C4_amended at the injection string from the spec. -/
theorem C4_amended_witness :
    create_vtable true "foo; DROP TABLE t" "mod" = ⟨false, []⟩ ∧
    (register_vtable true (some "mod") true true true).2 = [] :=
  C4_amended "foo; DROP TABLE t" "mod" true true (some "mod") true true true
    (Or.inl (by decide))

/-- Claim C8: `ensure_cache_built` is idempotent — after one completed call
the cache is built, and a further call performs zero `cache_builder`
invocations, zero key-extractor invocations and leaves the rows, indexes and
built flag unchanged; `invalidate_cache` clears rows and indexes and resets
the flag, and the next `ensure_cache_built` rebuilds exactly as from a fresh
empty cache. -/
theorem C8_theorem {Row σ : Type} (d : CachedTableDef Row σ)
    (sc sc2 : SharedCache Row) :
    (ensure_cache_built d sc).built = true ∧
    ensure_cache_built_traced d (ensure_cache_built d sc) =
      (ensure_cache_built d sc, 0, 0) ∧
    invalidate_cache sc2 = ⟨[], [], false⟩ ∧
    ensure_cache_built d (invalidate_cache sc2) =
      ensure_cache_built d ⟨[], [], false⟩ := by
  have hbuilt : (ensure_cache_built d sc).built = true := by
    unfold ensure_cache_built ensure_cache_built_traced
    by_cases h : sc.built
    · simp [h]
    · simp [h]
  refine ⟨hbuilt, ?_, rfl, rfl⟩
  unfold ensure_cache_built_traced
  simp [hbuilt]

/-- Claim C9, counterexample: the live builder accepts two `filter_eq` calls
on the same column `c` and records two filter entries with the same column
index, so a definition produced by a builder can hold more than one filter
entry per column. -/
theorem C9_counterexample :
    (c9Def.filters.map (fun f => f.column_index)) = [0, 0] ∧
    ¬ (c9Def.filters.map (fun f => f.column_index)).Nodup := by
  constructor
  · decide
  · decide

/-- Claim C9, amended: the builder does not enforce at most one filter per
column (repeated `filter_eq` calls on the same column append further
entries); a `filter_eq` / `filter_eq_text` call naming a column absent from
the column list leaves the definition unchanged — a silent no-op — in both
the live and the cached builder. -/
theorem C9_amended {σ Row : Type} (d : VTableDef σ) (dc : CachedTableDef Row σ)
    (name : String) (fi : Int → Option σ) (ft : String → Option σ)
    (cost rows : Rat)
    (h : d.find_column name = -1) (h2 : dc.find_column name = -1) :
    VTableBuilder.filter_eq d name fi cost rows = d ∧
    VTableBuilder.filter_eq_text d name ft cost rows = d ∧
    CachedTableBuilder.filter_eq dc name fi cost rows = dc ∧
    CachedTableBuilder.filter_eq_text dc name ft cost rows = dc := by
  refine ⟨?_, ?_, ?_, ?_⟩
  · unfold VTableBuilder.filter_eq
    simp [h]
  · unfold VTableBuilder.filter_eq_text
    simp [h]
  · unfold CachedTableBuilder.filter_eq
    simp [h2]
  · unfold CachedTableBuilder.filter_eq_text
    simp [h2]

/-- Witness for C9_amended: a definition with single column `c` and a
`filter_eq` on the absent column `zzz`. -/
theorem C9_amended_witness :
    VTableBuilder.filter_eq
        (VTableBuilder.column_int64 (VTableBuilder.table Unit "t") "c")
        "zzz" (fun _ => none) 10 10 =
      VTableBuilder.column_int64 (VTableBuilder.table Unit "t") "c" ∧
    VTableBuilder.filter_eq_text
        (VTableBuilder.column_int64 (VTableBuilder.table Unit "t") "c")
        "zzz" (fun _ => none) 10 10 =
      VTableBuilder.column_int64 (VTableBuilder.table Unit "t") "c" ∧
    CachedTableBuilder.filter_eq
        (CachedTableBuilder.column_int64
          (CachedTableBuilder.cached_table Int Unit "t") "c")
        "zzz" (fun _ => none) 10 10 =
      CachedTableBuilder.column_int64
        (CachedTableBuilder.cached_table Int Unit "t") "c" ∧
    CachedTableBuilder.filter_eq_text
        (CachedTableBuilder.column_int64
          (CachedTableBuilder.cached_table Int Unit "t") "c")
        "zzz" (fun _ => none) 10 10 =
      CachedTableBuilder.column_int64
        (CachedTableBuilder.cached_table Int Unit "t") "c" :=
  C9_amended
    (VTableBuilder.column_int64 (VTableBuilder.table Unit "t") "c")
    (CachedTableBuilder.column_int64
      (CachedTableBuilder.cached_table Int Unit "t") "c")
    "zzz" (fun _ => none) (fun _ => none) 10 10 (by decide) (by decide)

/-- Claim C1, counterexample: in `c1Def` a filter on column 0 with cost
exactly 1.0 ties with the hash index on column 0 (fixed cost 1.0); for a
single usable equality constraint on that column the planner reports
`idxNum = 1` (the filter id), not `INDEX_BASE + 0 = 1000` — because the
strict `<` comparison lets the filter, examined first, keep the tie. -/
theorem C1_counterexample :
    (cached_vtab_best_index c1Def
        [⟨true, SQLITE_INDEX_CONSTRAINT_EQ, 0⟩]).idxNum = 1 ∧
    (cached_vtab_best_index c1Def
        [⟨true, SQLITE_INDEX_CONSTRAINT_EQ, 0⟩]).idxNum ≠ INDEX_BASE + 0 := by
  constructor
  · decide
  · decide

/-- Claim C1, amended: for a single usable equality constraint on a column
that carries both a registered filter and a hash index, the planner selects
the index (reporting `idxNum = INDEX_BASE + index position`) exactly when the
fixed index cost 1.0 is strictly below the filter's cost; on a cost tie (and
a fortiori for a cheaper filter) it reports the filter's id — so the
tie-break goes to the filter, not the index. -/
theorem C1_amended {Row σ : Type} (d : CachedTableDef Row σ) (c : Int)
    (f : FilterDef σ) (pos : Nat)
    (hf : d.find_filter c = some f) (hi : d.find_index c = some pos)
    (hc : f.estimated_cost < 1000000000) :
    (cached_vtab_best_index d [⟨true, SQLITE_INDEX_CONSTRAINT_EQ, c⟩]).idxNum =
      if 1 < f.estimated_cost then INDEX_BASE + (pos : Int)
      else f.filter_id := by
  unfold cached_vtab_best_index
  simp only [List.enum, List.enumFrom]
  unfold cachedBestLoop
  simp only [SQLITE_INDEX_CONSTRAINT_EQ, hf, hi, if_pos hc]
  by_cases h2 : (1 : Rat) < f.estimated_cost
  · simp [h2, cachedBestLoop, INDEX_BASE]
  · simp [h2, cachedBestLoop]

/-- Witness for C1_amended on `c1Def`, where the filter cost is exactly 1.0:
the planner reports the filter id. -/
theorem C1_amended_witness :
    (cached_vtab_best_index c1Def
        [⟨true, SQLITE_INDEX_CONSTRAINT_EQ, 0⟩]).idxNum =
      if 1 < c1Filter.estimated_cost then INDEX_BASE + ((0 : Nat) : Int)
      else c1Filter.filter_id :=
  C1_amended c1Def 0 c1Filter 0 rfl rfl (by decide)

/-- In iterator mode, one advance preserves iterator mode and a set latch. -/
theorem vtab_next_latch {σ : Type} (it : RowIter σ) (c : Cursor σ)
    (h1 : c.using_iterator = true) (h2 : c.iterator_eof = true) :
    (vtab_next it c).using_iterator = true ∧
    (vtab_next it c).iterator_eof = true := by
  unfold vtab_next
  rw [h1]
  cases c.iter <;> simp [h1, h2]

/-- In iterator mode with the latch set, the live eof callback reports
exhausted. -/
theorem vtab_eof_of_latch {σ : Type} (it : RowIter σ) (c : Cursor σ)
    (h1 : c.using_iterator = true) (h2 : c.iterator_eof = true) :
    vtab_eof it c = true := by
  unfold vtab_eof
  rw [h1]
  cases c.iter <;> simp [h2]

/-- The latch property iterated: every later eof call still reports
exhausted. -/
theorem vtab_eof_latch_forever {σ : Type} (it : RowIter σ) (c : Cursor σ)
    (h1 : c.using_iterator = true) (h2 : c.iterator_eof = true) (n : Nat) :
    vtab_eof it ((fun x => vtab_next it x)^[n] c) = true := by
  induction n generalizing c with
  | zero => exact vtab_eof_of_latch it c h1 h2
  | succ n ih =>
    rw [Function.iterate_succ_apply]
    have h := vtab_next_latch it c h1 h2
    exact ih (vtab_next it c) h.1 h.2

/-- Cached analogue of `vtab_next_latch`. -/
theorem cached_vtab_next_latch {Row σ : Type} (it : RowIter σ)
    (c : CachedCursor Row σ)
    (h1 : c.using_iterator = true) (h2 : c.iterator_eof = true) :
    (cached_vtab_next it c).using_iterator = true ∧
    (cached_vtab_next it c).iterator_eof = true := by
  unfold cached_vtab_next
  cases c.iterator
  · simp [h1, h2, apply_ite CachedCursor.using_iterator,
      apply_ite CachedCursor.iterator_eof]
  · simp [h1, h2]

/-- Cached analogue of `vtab_eof_of_latch` (holds for every shared-cache
state). -/
theorem cached_vtab_eof_of_latch {Row σ : Type} (it : RowIter σ)
    (sc : SharedCache Row) (c : CachedCursor Row σ)
    (h1 : c.using_iterator = true) (h2 : c.iterator_eof = true) :
    cached_vtab_eof it sc c = true := by
  unfold cached_vtab_eof
  rw [h1]
  cases c.iterator <;> simp [h2]

/-- Cached analogue of `vtab_eof_latch_forever`. -/
theorem cached_vtab_eof_latch_forever {Row σ : Type} (it : RowIter σ)
    (c : CachedCursor Row σ)
    (h1 : c.using_iterator = true) (h2 : c.iterator_eof = true) (n : Nat)
    (sc : SharedCache Row) :
    cached_vtab_eof it sc ((fun x => cached_vtab_next it x)^[n] c) = true := by
  induction n generalizing c with
  | zero => exact cached_vtab_eof_of_latch it sc c h1 h2
  | succ n ih =>
    rw [Function.iterate_succ_apply]
    have h := cached_vtab_next_latch it c h1 h2
    exact ih (cached_vtab_next it c) h.1 h.2

/-- Generator analogue of `vtab_next_latch`. -/
theorem generator_vtab_next_latch {Row γ σ : Type} (g : GenOps Row γ)
    (it : RowIter σ) (c : GeneratorCursor γ σ)
    (h1 : c.using_iterator = true) (h2 : c.iterator_eof = true) :
    (generator_vtab_next g it c).using_iterator = true ∧
    (generator_vtab_next g it c).iterator_eof = true := by
  unfold generator_vtab_next
  cases hi : c.iterator
  · simp only [hi, Option.isSome_none, Bool.and_false, Bool.false_eq_true,
      if_false]
    cases c.generator <;> simp [h1, h2]
  · simp [h1, hi, h2]

/-- Generator analogue of `vtab_eof_of_latch`. -/
theorem generator_vtab_eof_of_latch {γ σ : Type} (it : RowIter σ)
    (c : GeneratorCursor γ σ)
    (h1 : c.using_iterator = true) (h2 : c.iterator_eof = true) :
    generator_vtab_eof it c = true := by
  unfold generator_vtab_eof
  rw [h1]
  cases c.iterator <;> simp [h2]

/-- Generator analogue of `vtab_eof_latch_forever`. -/
theorem generator_vtab_eof_latch_forever {Row γ σ : Type} (g : GenOps Row γ)
    (it : RowIter σ) (c : GeneratorCursor γ σ)
    (h1 : c.using_iterator = true) (h2 : c.iterator_eof = true) (n : Nat) :
    generator_vtab_eof it ((fun x => generator_vtab_next g it x)^[n] c) =
      true := by
  induction n generalizing c with
  | zero => exact generator_vtab_eof_of_latch it c h1 h2
  | succ n ih =>
    rw [Function.iterate_succ_apply]
    have h := generator_vtab_next_latch g it c h1 h2
    exact ih (generator_vtab_next g it c) h.1 h.2

/-- Claim C2, counterexample: the eof callback's verdict is not determined by
the `next()` return value alone.  `itNeverEnds` and `itEofAlways` have
identical `next` (always another row) and differ only in their `eof()`
predicate; on the same filter-iterator cursor — reachable via `vtab_filter`
on `c2Def`, whose initial `next()` returned true — the eof callback answers
false for one and true (end of scan) for the other, so end-of-scan here is
determined by the iterator's separate `eof()` predicate. -/
theorem C2_counterexample :
    (vtab_filter_step itEofAlways c2Def vtab_open 1 [SqlValue.int 0]).1 =
      c2Cursor ∧
    itNeverEnds.next = itEofAlways.next ∧
    vtab_eof itNeverEnds c2Cursor = false ∧
    vtab_eof itEofAlways c2Cursor = true := by
  refine ⟨by decide, rfl, by decide, by decide⟩

/-- Claim C2, amended: once the iterator's `next()` returns false, the latch
is set and the eof callback reports exhausted on every subsequent call — for
every flavor's filter-iterator mode and even for an iterator whose `eof()`
always returns false; however, while the latch is unset the eof callback
additionally consults the iterator's `eof()` predicate, so end-of-scan is not
determined from the `next()` return value alone. -/
theorem C2_amended {Row σ γ : Type} (it : RowIter σ) (g : GenOps Row γ)
    (cl : Cursor σ) (sl : σ) (cc : CachedCursor Row σ) (scs : σ)
    (gc : GeneratorCursor γ σ) (sgs : σ)
    (h1 : cl.using_iterator = true) (h2 : cl.iter = some sl)
    (h3 : (it.next sl).1 = false)
    (h4 : cc.using_iterator = true) (h5 : cc.iterator = some scs)
    (h6 : (it.next scs).1 = false)
    (h7 : gc.using_iterator = true) (h8 : gc.iterator = some sgs)
    (h9 : (it.next sgs).1 = false) :
    (∀ n, vtab_eof it ((fun x => vtab_next it x)^[n] (vtab_next it cl)) =
      true) ∧
    (∀ (n : Nat) (sc : SharedCache Row),
      cached_vtab_eof it sc
        ((fun x => cached_vtab_next it x)^[n] (cached_vtab_next it cc)) =
      true) ∧
    (∀ n, generator_vtab_eof it
        ((fun x => generator_vtab_next g it x)^[n]
          (generator_vtab_next g it gc)) = true) := by
  have hL : (vtab_next it cl).using_iterator = true ∧
      (vtab_next it cl).iterator_eof = true := by
    unfold vtab_next
    rw [h1, h2]
    simp [h1, h3]
  have hC : (cached_vtab_next it cc).using_iterator = true ∧
      (cached_vtab_next it cc).iterator_eof = true := by
    unfold cached_vtab_next
    rw [h4, h5]
    simp [h4, h6]
  have hG : (generator_vtab_next g it gc).using_iterator = true ∧
      (generator_vtab_next g it gc).iterator_eof = true := by
    unfold generator_vtab_next
    rw [h8]
    simp [h7, h9]
  refine ⟨fun n => vtab_eof_latch_forever it _ hL.1 hL.2 n,
          fun n sc => cached_vtab_eof_latch_forever it _ hC.1 hC.2 n sc,
          fun n => generator_vtab_eof_latch_forever g it _ hG.1 hG.2 n⟩

/-- Witness for C2_amended with `itNeverEnds` made exhausted: an iterator
whose `eof()` always returns false still terminates — checked at n = 0, 1. -/
theorem C2_amended_witness :
    vtab_eof itFalseNext
        ((fun x => vtab_next itFalseNext x)^[0]
          (vtab_next itFalseNext c2Cursor)) = true ∧
    cached_vtab_eof itFalseNext ⟨([] : List Int), [], false⟩
        ((fun x => cached_vtab_next itFalseNext x)^[1]
          (cached_vtab_next itFalseNext c2CachedCursor)) = true ∧
    generator_vtab_eof itFalseNext
        ((fun x => generator_vtab_next genUnit itFalseNext x)^[0]
          (generator_vtab_next genUnit itFalseNext c2GenCursor)) = true := by
  have h := @C2_amended Int Unit Unit itFalseNext genUnit
    c2Cursor Unit.unit c2CachedCursor Unit.unit c2GenCursor Unit.unit
    rfl rfl rfl rfl rfl rfl rfl rfl rfl
  exact ⟨h.1 0, h.2.1 1 ⟨[], [], false⟩, h.2.2 0⟩

/-- Claim C3, counterexample: in the live flavor's full-scan mode the column
callback performs no terminal check.  After a full-scan `filter` on `c3Def`
(capturing total = 1) and one advance, the eof callback reports exhausted,
yet column access invokes the definition's user getter at the out-of-range
position 1 instead of yielding engine-null. -/
theorem C3_counterexample :
    vtab_eof unitIter c3Cursor = true ∧
    vtab_column c3Def c3Cursor 0 = LiveColOutcome.defGetter 0 1 ∧
    LiveColOutcome.defGetter 0 1 ≠ LiveColOutcome.engineNull := by
  refine ⟨by decide, by decide, by decide⟩

/-- Claim C3, amended: once a cursor is Terminated as witnessed by its own
mode state, column access yields engine-null without invoking any
user-supplied getter — in filter-iterator mode (any flavor) with the iterator
present and the eof latch set, in the cached flavor's IndexLookup mode when
its eof callback reports exhausted, in the cached flavor's full-scan mode
when its eof callback reports exhausted and the unused local fallback cache
is empty (as every `filter` call leaves it), and in the generator flavor's
stream mode once the generator is absent or its latch is set.  The live
flavor's full-scan mode is excluded: there the code invokes the getter at the
current position without any bound check. -/
theorem C3_amended {Row σ γ : Type} (dl : VTableDef σ) (it : RowIter σ)
    (cl : Cursor σ) (sl : σ) (dc : CachedTableDef Row σ) (sc : SharedCache Row)
    (cc ci cf : CachedCursor Row σ) (scs : σ) (ncols : Nat)
    (gc gg : GeneratorCursor γ σ) (col : Int)
    (hl1 : cl.using_iterator = true) (hl2 : cl.iter = some sl)
    (hl3 : cl.iterator_eof = true)
    (hc1 : cc.using_iterator = true) (hc2 : cc.iterator = some scs)
    (hc3 : cc.iterator_eof = true)
    (hi1 : ci.using_iterator = false) (hi2 : ci.using_index = true)
    (hi3 : cached_vtab_eof it sc ci = true)
    (hf1 : cf.using_iterator = false) (hf2 : cf.using_index = false)
    (hf3 : cf.cache = []) (hf4 : cached_vtab_eof it sc cf = true)
    (hg1 : gc.using_iterator = false)
    (hg2 : (gc.generator.isNone || gc.generator_eof) = true)
    (hgi1 : gg.using_iterator = true) (hgi2 : gg.iterator.isSome = true)
    (hgi3 : gg.iterator_eof = true) :
    vtab_column dl cl col = LiveColOutcome.engineNull ∧
    cached_vtab_column dc sc cc col = CachedColOutcome.engineNull ∧
    cached_vtab_column dc sc ci col = CachedColOutcome.engineNull ∧
    cached_vtab_column dc sc cf col = CachedColOutcome.engineNull ∧
    generator_vtab_column ncols gc col = GenColOutcome.engineNull ∧
    generator_vtab_column ncols gg col = GenColOutcome.engineNull := by
  refine ⟨?_, ?_, ?_, ?_, ?_, ?_⟩
  · unfold vtab_column
    split
    · rfl
    · rw [hl1, hl2]
      simp [hl3]
  · unfold cached_vtab_column
    split
    · rfl
    · rw [hc1, hc2]
      simp [hc3]
  · unfold cached_vtab_eof at hi3
    rw [hi1, hi2] at hi3
    simp only [Bool.false_eq_true, if_false, if_true] at hi3
    unfold cached_vtab_column
    split
    · rfl
    · rw [hi1]
      simp only [Bool.false_and, Bool.false_eq_true, if_false, hi2, if_true]
      cases hm : ci.index_matches with
      | none => rfl
      | some ms =>
        rw [hm] at hi3
        have hlen : ms.length ≤ ci.index_pos := by
          simpa using hi3
        have hnone : ms[ci.index_pos]? = none := List.getElem?_eq_none hlen
        simp [hnone]
  · unfold cached_vtab_eof at hf4
    rw [hf1, hf2] at hf4
    simp only [Bool.false_eq_true, if_false] at hf4
    unfold cached_vtab_column
    split
    · rfl
    · rw [hf1]
      simp only [Bool.false_and, Bool.false_eq_true, if_false, hf2]
      by_cases hb : sc.built
      · rw [hb] at hf4
        simp only [if_true] at hf4
        have hlen : sc.data.length ≤ cf.current_row := by
          simpa using hf4
        have h1 : sc.data[cf.current_row]? = none := List.getElem?_eq_none hlen
        have h2 : cf.cache[cf.current_row]? = none := by
          rw [hf3]
          rfl
        simp [hb, h1, h2]
      · have h2 : cf.cache[cf.current_row]? = none := by
          rw [hf3]
          rfl
        simp [hb, h2]
  · unfold generator_vtab_column
    split
    · rfl
    · rw [hg1]
      simp [hg2]
  · unfold generator_vtab_column
    split
    · rfl
    · rw [hgi1]
      simp [hgi2, hgi3]

/-- Witness for C3_amended on concrete Terminated cursors of every covered
mode. -/
theorem C3_amended_witness :
    vtab_column c3Def c3TermIterCursor 0 = LiveColOutcome.engineNull ∧
    cached_vtab_column c5Def c3Shared c3CachedIterCursor 0 =
      CachedColOutcome.engineNull ∧
    cached_vtab_column c5Def c3Shared c3IndexCursor 0 =
      CachedColOutcome.engineNull ∧
    cached_vtab_column c5Def c3Shared c3ScanCursor 0 =
      CachedColOutcome.engineNull ∧
    generator_vtab_column 1 c3GenCursor 0 = GenColOutcome.engineNull ∧
    generator_vtab_column 1 c3GenIterCursor 0 = GenColOutcome.engineNull :=
  C3_amended c3Def unitIter c3TermIterCursor Unit.unit c5Def c3Shared
    c3CachedIterCursor c3IndexCursor c3ScanCursor Unit.unit 1
    c3GenCursor c3GenIterCursor 0
    rfl rfl rfl rfl rfl rfl rfl rfl (by decide) rfl rfl rfl (by decide)
    rfl rfl rfl rfl rfl

/-- `cached_vtab_next` never changes the mode flags, and in iterator mode
with a live iterator it leaves `current_row` untouched. -/
theorem cached_vtab_next_fields {Row σ : Type} (it : RowIter σ)
    (c : CachedCursor Row σ) :
    (cached_vtab_next it c).using_index = c.using_index ∧
    (cached_vtab_next it c).using_iterator = c.using_iterator ∧
    (c.using_iterator = true → c.iterator.isSome = true →
      (cached_vtab_next it c).current_row = c.current_row) ∧
    (c.using_iterator = false → c.using_index = true →
      (cached_vtab_next it c).current_row = c.current_row ∧
      (cached_vtab_next it c).index_pos = c.index_pos + 1) := by
  unfold cached_vtab_next
  by_cases hu : c.using_iterator <;> cases hit : c.iterator <;>
    by_cases hx : c.using_index <;> simp [hu, hit, hx]

/-- A filter-path result is never in IndexLookup mode, and its `current_row`
is the reset value 0. -/
theorem cached_filterPath_state {Row σ : Type} (it : RowIter σ)
    (d : CachedTableDef Row σ) (idxNum : Int) (argv : List SqlValue)
    (sc0 : SharedCache Row) :
    ((cached_filter_filterPath it d idxNum argv sc0).1).using_index = false ∧
    ((cached_filter_filterPath it d idxNum argv sc0).1).current_row = 0 := by
  unfold cached_filter_filterPath
  dsimp only
  split
  · rename_i filter hf
    by_cases hs : (filter.create (argv.headI)).isSome
    · have hit :
          (cached_filter_start (filter.create (argv.headI)) :
            CachedCursor Row σ).iterator.isSome = true := hs
      rw [if_pos hit]
      exact ⟨(cached_vtab_next_fields it _).1,
             (cached_vtab_next_fields it _).2.2.1 rfl hit⟩
    · have hit :
          ¬ ((cached_filter_start (filter.create (argv.headI)) :
            CachedCursor Row σ).iterator.isSome = true) := hs
      rw [if_neg hit]
      exact ⟨rfl, rfl⟩
  · exact ⟨rfl, rfl⟩

/-- Every cursor `cached_vtab_filter` hands back is either not in IndexLookup
mode, or sits at the reset position: `using_iterator = false` and
`current_row = 0`. -/
theorem cached_filter_cases {Row σ : Type} (it : RowIter σ)
    (d : CachedTableDef Row σ) (sc : SharedCache Row)
    (c : CachedCursor Row σ) (idxNum : Int) (argv : List SqlValue) :
    ((cached_vtab_filter it d sc c idxNum argv).1).using_index = false ∨
    (((cached_vtab_filter it d sc c idxNum argv).1).using_iterator = false ∧
     ((cached_vtab_filter it d sc c idxNum argv).1).current_row = 0) := by
  unfold cached_vtab_filter
  dsimp only
  repeat' split
  all_goals
    first
      | exact Or.inr ⟨rfl, rfl⟩
      | exact Or.inl (cached_filterPath_state it d idxNum argv _).1

/-- Every cursor `cached_vtab_filter` hands back in IndexLookup mode has
`using_iterator = false` and `current_row = 0` (the reset values). -/
theorem cached_filter_index_state {Row σ : Type} (it : RowIter σ)
    (d : CachedTableDef Row σ) (sc : SharedCache Row)
    (c : CachedCursor Row σ) (idxNum : Int) (argv : List SqlValue)
    (h : ((cached_vtab_filter it d sc c idxNum argv).1).using_index = true) :
    ((cached_vtab_filter it d sc c idxNum argv).1).using_iterator = false ∧
    ((cached_vtab_filter it d sc c idxNum argv).1).current_row = 0 := by
  rcases cached_filter_cases it d sc c idxNum argv with hc | hc
  · rw [hc] at h
    exact absurd h (by simp)
  · exact hc

/-- Claim C5, counterexample: an IndexLookup scan on `c5Def` with key 5 has a
two-entry match list `[0, 1]`; after one advance the cursor is positioned on
entry p = 1 of the match list (its eof callback still reports a row), yet the
rowid callback returns 0, not 1 — the rowid in IndexLookup mode is the
untouched `current_row` field, not the position within the match list. -/
theorem C5_counterexample :
    c5Run.1.using_index = true ∧
    c5Run.1.index_matches = some [0, 1] ∧
    c5Cursor1.index_pos = 1 ∧
    cached_vtab_eof unitIter c5Run.2 c5Cursor1 = false ∧
    cached_vtab_rowid unitIter c5Cursor1 = 0 ∧
    (0 : Int) ≠ 1 := by
  refine ⟨by decide, by decide, by decide, by decide, by decide, by decide⟩

/-- Claim C5, amended: for every cached-flavor cursor that `cached_vtab_filter`
put into IndexLookup mode, the rowid callback returns the cursor's
`current_row` field, which the filter reset to 0 and which `cached_vtab_next`
never touches in IndexLookup mode — so the reported rowid is constantly 0 at
every position of the index match list, not the position within it. -/
theorem C5_amended {Row σ : Type} (it : RowIter σ) (d : CachedTableDef Row σ)
    (sc : SharedCache Row) (c : CachedCursor Row σ) (idxNum : Int)
    (argv : List SqlValue)
    (h : ((cached_vtab_filter it d sc c idxNum argv).1).using_index = true) :
    ∀ n, cached_vtab_rowid it
      ((fun x => cached_vtab_next it x)^[n]
        (cached_vtab_filter it d sc c idxNum argv).1) = 0 := by
  have h0 := cached_filter_index_state it d sc c idxNum argv h
  have main : ∀ (m : Nat) (c' : CachedCursor Row σ),
      c'.using_iterator = false → c'.using_index = true →
      c'.current_row = 0 →
      cached_vtab_rowid it ((fun x => cached_vtab_next it x)^[m] c') = 0 := by
    intro m
    induction m with
    | zero =>
      intro c' h1 _h2 h3
      rw [Function.iterate_zero_apply]
      unfold cached_vtab_rowid
      rw [h1]
      simp [h3]
    | succ k ih =>
      intro c' h1 h2 h3
      rw [Function.iterate_succ_apply]
      have hf := cached_vtab_next_fields it c'
      exact ih (cached_vtab_next it c') (hf.2.1.trans h1) (hf.1.trans h2)
        ((hf.2.2.2 h1 h2).1.trans h3)
  intro n
  exact main n _ h0.1 h h0.2

/-- Witness for C5_amended at the concrete IndexLookup run on `c5Def`. -/
theorem C5_amended_witness :
    cached_vtab_rowid unitIter
      ((fun x => cached_vtab_next unitIter x)^[1]
        (cached_vtab_filter unitIter c5Def ⟨[], [], false⟩ cached_vtab_open
          INDEX_BASE [SqlValue.int 5]).1) = 0 :=
  C5_amended unitIter c5Def ⟨[], [], false⟩ cached_vtab_open INDEX_BASE
    [SqlValue.int 5] (by decide) 1

/-- Branch equation: a column that is not writable or has no setter is
skipped. -/
theorem updateLoop_skip (rowid k : Nat) (col : ColumnDef)
    (cs : List ColumnDef) (a : SqlValue) (rest : List SqlValue)
    (h : col.writable = false ∨ col.set = none) :
    updateLoop (col :: cs) (a :: rest) rowid k =
      updateLoop cs rest rowid (k + 1) := by
  rcases h with hw | hs
  · rcases hs : col.set with _ | f <;> simp only [updateLoop, hw, hs]
  · rcases hw : col.writable with _ | _ <;> simp only [updateLoop, hw, hs]

/-- Branch equation: a writable column whose setter accepts the value records
the call and continues. -/
theorem updateLoop_accept (rowid k : Nat) (col : ColumnDef)
    (cs : List ColumnDef) (a : SqlValue) (rest : List SqlValue)
    (hw : col.writable = true) (f : Nat → SqlValue → Bool)
    (hs : col.set = some f) (hres : f rowid a = true) :
    updateLoop (col :: cs) (a :: rest) rowid k =
      ((updateLoop cs rest rowid (k + 1)).1,
       (k, rowid, a) :: (updateLoop cs rest rowid (k + 1)).2) := by
  simp only [updateLoop, hw, hs, hres, if_true]

/-- Branch equation: a writable column whose setter rejects the value aborts
with error. -/
theorem updateLoop_reject (rowid k : Nat) (col : ColumnDef)
    (cs : List ColumnDef) (a : SqlValue) (rest : List SqlValue)
    (hw : col.writable = true) (f : Nat → SqlValue → Bool)
    (hs : col.set = some f) (hres : f rowid a = false) :
    updateLoop (col :: cs) (a :: rest) rowid k = (Rc.error, [(k, rowid, a)]) := by
  simp only [updateLoop, hw, hs, hres, Bool.false_eq_true, if_false]

/-- Full behaviour of the UPDATE column loop: the return code is ok or error;
the invoked column indices grow strictly (column order, no retry); every
recorded call is at an in-range position `≥ k`, recorded the dispatch rowid,
and named a writable column with a setter — and if that setter rejects the
recorded value the call is the last one made and the loop returns error;
finally, the loop errors exactly when some recorded call's setter rejected. -/
theorem updateLoop_spec (rowid : Nat) :
    ∀ (cols : List ColumnDef) (args : List SqlValue) (k : Nat),
    ((updateLoop cols args rowid k).1 = Rc.ok ∨
      (updateLoop cols args rowid k).1 = Rc.error) ∧
    List.Chain' (fun a b => a < b)
      (((updateLoop cols args rowid k).2).map (fun e => e.1)) ∧
    (∀ e ∈ (updateLoop cols args rowid k).2,
      k ≤ e.1 ∧ e.1 - k < cols.length ∧ e.1 - k < args.length ∧
      e.2.1 = rowid ∧
      ∃ col f, cols[e.1 - k]? = some col ∧ col.writable = true ∧
        col.set = some f ∧
        (f rowid e.2.2 = false →
          ((updateLoop cols args rowid k).2).getLast? = some e ∧
          (updateLoop cols args rowid k).1 = Rc.error)) ∧
    ((updateLoop cols args rowid k).1 = Rc.error ↔
      ∃ e ∈ (updateLoop cols args rowid k).2,
        ∃ col f, cols[e.1 - k]? = some col ∧ col.set = some f ∧
          f rowid e.2.2 = false) := by
  intro cols
  induction cols with
  | nil =>
    intro args k
    cases args <;> simp [updateLoop]
  | cons col cs ih =>
    intro args k
    cases args with
    | nil => simp [updateLoop]
    | cons a rest =>
      have harith : ∀ m : Nat, k + 1 ≤ m → m - k = (m - (k + 1)) + 1 := by
        omega
      by_cases hactive : col.writable = true ∧ ∃ f, col.set = some f
      case neg =>
        have hskip : col.writable = false ∨ col.set = none := by
          rcases hb : col.writable with _ | _
          · exact Or.inl rfl
          · rcases hc : col.set with _ | f
            · exact Or.inr rfl
            · exact absurd ⟨hb, f, hc⟩ hactive
        rw [updateLoop_skip rowid k col cs a rest hskip]
        obtain ⟨ihok, ihchain, ihmem, ihiff⟩ := ih rest (k + 1)
        refine ⟨ihok, ihchain, ?_, ?_⟩
        · intro e he
          obtain ⟨hk, hlc, hla, hrow, col', f', hget, hwr, hset, himp⟩ :=
            ihmem e he
          refine ⟨by omega, by rw [harith e.1 hk]; simpa using hlc,
            by rw [harith e.1 hk]; simpa using hla, hrow,
            col', f', ?_, hwr, hset, himp⟩
          rw [harith e.1 hk, List.getElem?_cons_succ]
          exact hget
        · rw [ihiff]
          constructor
          · rintro ⟨e, he, col', f', hget, hset, hfalse⟩
            have hk := (ihmem e he).1
            refine ⟨e, he, col', f', ?_, hset, hfalse⟩
            rw [harith e.1 hk, List.getElem?_cons_succ]
            exact hget
          · rintro ⟨e, he, col', f', hget, hset, hfalse⟩
            have hk := (ihmem e he).1
            rw [harith e.1 hk, List.getElem?_cons_succ] at hget
            exact ⟨e, he, col', f', hget, hset, hfalse⟩
      case pos =>
        obtain ⟨hw, f, hs⟩ := hactive
        rcases hres : f rowid a with _ | _
        case false =>
          rw [updateLoop_reject rowid k col cs a rest hw f hs hres]
          refine ⟨Or.inr rfl, List.chain'_singleton _, ?_, ?_⟩
          · intro e he
            rw [List.mem_singleton] at he
            subst he
            exact ⟨le_refl k, by simp, by simp, rfl,
              col, f, by simp, hw, hs, fun _ => ⟨rfl, rfl⟩⟩
          · constructor
            · intro _
              exact ⟨(k, rowid, a), List.mem_singleton_self _,
                col, f, by simp, hs, hres⟩
            · intro _
              rfl
        case true =>
          rw [updateLoop_accept rowid k col cs a rest hw f hs hres]
          dsimp only
          obtain ⟨ihok, ihchain, ihmem, ihiff⟩ := ih rest (k + 1)
          refine ⟨ihok, ?_, ?_, ?_⟩
          · rw [List.map_cons, List.chain'_cons']
            refine ⟨?_, ihchain⟩
            intro b hb
            rcases hq : (updateLoop cs rest rowid (k + 1)).2 with _ | ⟨e0, tl⟩
            · rw [hq] at hb
              simp at hb
            · rw [hq] at hb
              simp only [List.map_cons, List.head?_cons, Option.mem_def,
                Option.some.injEq] at hb
              subst hb
              have := (ihmem e0 (by rw [hq]; exact List.mem_cons_self ..)).1
              omega
          · intro e he
            rw [List.mem_cons] at he
            rcases he with he | he
            · subst he
              refine ⟨le_refl k, by simp, by simp, rfl,
                col, f, by simp, hw, hs, fun hfalse => ?_⟩
              rw [hres] at hfalse
              exact absurd hfalse (by simp)
            · obtain ⟨hk, hlc, hla, hrow, col', f', hget, hwr, hset, himp⟩ :=
                ihmem e he
              refine ⟨by omega, by rw [harith e.1 hk]; simpa using hlc,
                by rw [harith e.1 hk]; simpa using hla, hrow,
                col', f', ?_, hwr, hset, fun hfalse => ?_⟩
              · rw [harith e.1 hk, List.getElem?_cons_succ]
                exact hget
              · obtain ⟨hlast, herr⟩ := himp hfalse
                refine ⟨?_, herr⟩
                rcases hq : (updateLoop cs rest rowid (k + 1)).2 with _ | ⟨e0, tl⟩
                · rw [hq] at he
                  simp at he
                · rw [hq] at hlast
                  rw [List.getLast?_cons_cons]
                  exact hlast
          · constructor
            · intro herr
              obtain ⟨e, he, col', f', hget, hset, hfalse⟩ := ihiff.mp herr
              have hk := (ihmem e he).1
              refine ⟨e, List.mem_cons_of_mem _ he, col', f', ?_, hset, hfalse⟩
              rw [harith e.1 hk, List.getElem?_cons_succ]
              exact hget
            · rintro ⟨e, he, col', f', hget, hset, hfalse⟩
              rw [List.mem_cons] at he
              rcases he with he | he
              · exfalso
                subst he
                simp only [Nat.sub_self, List.getElem?_cons_zero,
                  Option.some.injEq] at hget
                subst hget
                rw [hs] at hset
                injection hset with hf
                rw [← hf, hres] at hfalse
                exact absurd hfalse (by simp)
              · have hk := (ihmem e he).1
                rw [harith e.1 hk, List.getElem?_cons_succ] at hget
                exact ihiff.mpr ⟨e, he, col', f', hget, hset, hfalse⟩

/-- The UPDATE column loop yields (ok, no calls) when no column is writable
with a setter. -/
theorem updateLoop_no_writable (rowid : Nat) :
    ∀ (cols : List ColumnDef) (args : List SqlValue) (k : Nat),
    (∀ col ∈ cols, ¬(col.writable = true ∧ col.set.isSome = true)) →
    updateLoop cols args rowid k = (Rc.ok, []) := by
  intro cols
  induction cols with
  | nil =>
    intro args k _
    cases args <;> simp [updateLoop]
  | cons col cs ih =>
    intro args k hno
    cases args with
    | nil => simp [updateLoop]
    | cons a rest =>
      have hcol := hno col (List.mem_cons_self col cs)
      have hskip : col.writable = false ∨ col.set = none := by
        rcases hb : col.writable with _ | _
        · exact Or.inl rfl
        · rcases hc : col.set with _ | f
          · exact Or.inr rfl
          · exact absurd ⟨hb, by rw [hc]; rfl⟩ hcol
      rw [updateLoop_skip rowid k col cs a rest hskip]
      exact ih rest (k + 1) (fun c hc => hno c (List.mem_cons_of_mem _ hc))

/-- Reduction of `vtab_update` on the UPDATE shape (more than one argument,
non-null `argv[0]`). -/
theorem vtab_update_update_eq {σ : Type} (d : VTableDef σ) (a0 a1 : SqlValue)
    (rest : List SqlValue) (h0 : value_is_null a0 = false) :
    vtab_update d (a0 :: a1 :: rest) =
      ((updateLoop d.columns rest (toSizeT (value_int64 a0)) 0).1,
       ⟨if d.before_modify then ["UPDATE " ++ d.name] else [],
        (updateLoop d.columns rest (toSizeT (value_int64 a0)) 0).2, [], []⟩) := by
  simp only [vtab_update, h0, Bool.not_false, if_true]

/-- Claim C6: on a live-flavor UPDATE dispatch (multi-argument shape with
non-null first argument) the writable columns' setters run in strictly
increasing column order (hence no retry); every recorded call names a
writable column with a setter and carries the dispatch rowid; a call whose
setter rejects is the last call made (no later column's setter is invoked)
and the operation returns the generic engine error; the operation errors
exactly when some setter rejected; and only `before_modify("UPDATE <name>")`
fires — no deleter or inserter. -/
theorem C6_theorem {σ : Type} (d : VTableDef σ) (a0 a1 : SqlValue)
    (rest : List SqlValue) (h0 : value_is_null a0 = false) :
    List.Chain' (fun x y => x < y)
      (((vtab_update d (a0 :: a1 :: rest)).2.setter_calls).map (fun e => e.1)) ∧
    (∀ e ∈ (vtab_update d (a0 :: a1 :: rest)).2.setter_calls,
      e.2.1 = toSizeT (value_int64 a0) ∧
      ∃ col f, d.columns[e.1]? = some col ∧ col.writable = true ∧
        col.set = some f ∧
        (f (toSizeT (value_int64 a0)) e.2.2 = false →
          ((vtab_update d (a0 :: a1 :: rest)).2.setter_calls).getLast? =
            some e ∧
          (vtab_update d (a0 :: a1 :: rest)).1 = Rc.error)) ∧
    ((vtab_update d (a0 :: a1 :: rest)).1 = Rc.error ↔
      ∃ e ∈ (vtab_update d (a0 :: a1 :: rest)).2.setter_calls,
        ∃ col f, d.columns[e.1]? = some col ∧ col.set = some f ∧
          f (toSizeT (value_int64 a0)) e.2.2 = false) ∧
    ((vtab_update d (a0 :: a1 :: rest)).1 = Rc.ok ∨
      (vtab_update d (a0 :: a1 :: rest)).1 = Rc.error) ∧
    (vtab_update d (a0 :: a1 :: rest)).2.before_modify =
      (if d.before_modify then ["UPDATE " ++ d.name] else []) ∧
    (vtab_update d (a0 :: a1 :: rest)).2.delete_calls = [] ∧
    (vtab_update d (a0 :: a1 :: rest)).2.insert_calls = [] := by
  rw [vtab_update_update_eq d a0 a1 rest h0]
  dsimp only
  obtain ⟨hok, hchain, hmem, hiff⟩ :=
    updateLoop_spec (toSizeT (value_int64 a0)) d.columns rest 0
  simp only [Nat.sub_zero] at hmem hiff
  refine ⟨hchain, ?_, hiff, hok, rfl, rfl, rfl⟩
  intro e he
  obtain ⟨_hk, _hlc, _hla, hrow, col, f, hget, hwr, hset, himp⟩ := hmem e he
  exact ⟨hrow, col, f, hget, hwr, hset, himp⟩

/-- Witness for C6_theorem on `c6Def` (three writable columns, the second
setter rejects) with values for all three columns. -/
theorem C6_theorem_witness :
    List.Chain' (fun x y => x < y)
      (((vtab_update c6Def
        (SqlValue.int 1 :: SqlValue.int 1 ::
          [SqlValue.int 7, SqlValue.int 8, SqlValue.int 9])).2.setter_calls).map
        (fun e => e.1)) ∧
    (∀ e ∈ (vtab_update c6Def
        (SqlValue.int 1 :: SqlValue.int 1 ::
          [SqlValue.int 7, SqlValue.int 8, SqlValue.int 9])).2.setter_calls,
      e.2.1 = toSizeT (value_int64 (SqlValue.int 1)) ∧
      ∃ col f, c6Def.columns[e.1]? = some col ∧ col.writable = true ∧
        col.set = some f ∧
        (f (toSizeT (value_int64 (SqlValue.int 1))) e.2.2 = false →
          ((vtab_update c6Def
            (SqlValue.int 1 :: SqlValue.int 1 ::
              [SqlValue.int 7, SqlValue.int 8,
                SqlValue.int 9])).2.setter_calls).getLast? = some e ∧
          (vtab_update c6Def
            (SqlValue.int 1 :: SqlValue.int 1 ::
              [SqlValue.int 7, SqlValue.int 8, SqlValue.int 9])).1 =
            Rc.error)) ∧
    ((vtab_update c6Def
        (SqlValue.int 1 :: SqlValue.int 1 ::
          [SqlValue.int 7, SqlValue.int 8, SqlValue.int 9])).1 = Rc.error ↔
      ∃ e ∈ (vtab_update c6Def
        (SqlValue.int 1 :: SqlValue.int 1 ::
          [SqlValue.int 7, SqlValue.int 8, SqlValue.int 9])).2.setter_calls,
        ∃ col f, c6Def.columns[e.1]? = some col ∧ col.set = some f ∧
          f (toSizeT (value_int64 (SqlValue.int 1))) e.2.2 = false) ∧
    ((vtab_update c6Def
        (SqlValue.int 1 :: SqlValue.int 1 ::
          [SqlValue.int 7, SqlValue.int 8, SqlValue.int 9])).1 = Rc.ok ∨
      (vtab_update c6Def
        (SqlValue.int 1 :: SqlValue.int 1 ::
          [SqlValue.int 7, SqlValue.int 8, SqlValue.int 9])).1 = Rc.error) ∧
    (vtab_update c6Def
        (SqlValue.int 1 :: SqlValue.int 1 ::
          [SqlValue.int 7, SqlValue.int 8,
            SqlValue.int 9])).2.before_modify =
      (if c6Def.before_modify then ["UPDATE " ++ c6Def.name] else []) ∧
    (vtab_update c6Def
        (SqlValue.int 1 :: SqlValue.int 1 ::
          [SqlValue.int 7, SqlValue.int 8,
            SqlValue.int 9])).2.delete_calls = [] ∧
    (vtab_update c6Def
        (SqlValue.int 1 :: SqlValue.int 1 ::
          [SqlValue.int 7, SqlValue.int 8,
            SqlValue.int 9])).2.insert_calls = [] :=
  C6_theorem c6Def (SqlValue.int 1) (SqlValue.int 1)
    [SqlValue.int 7, SqlValue.int 8, SqlValue.int 9] rfl

/-- Claim C10: on a live-flavor UPDATE dispatch, only columns that are both
marked writable and carry a setter are written; every recorded setter call is
within the declared column list and within the supplied value positions
(extra trailing argv entries and read-only columns are silently ignored); and
when no column at all is writable-with-setter the operation makes no setter
call and still returns success; no deleter or inserter is invoked. -/
theorem C10_theorem {σ : Type} (d : VTableDef σ) (a0 a1 : SqlValue)
    (rest : List SqlValue) (h0 : value_is_null a0 = false) :
    (∀ e ∈ (vtab_update d (a0 :: a1 :: rest)).2.setter_calls,
      e.1 < d.columns.length ∧ e.1 < rest.length ∧
      ∃ col, d.columns[e.1]? = some col ∧ col.writable = true ∧
        col.set.isSome = true) ∧
    ((∀ col ∈ d.columns, ¬(col.writable = true ∧ col.set.isSome = true)) →
      (vtab_update d (a0 :: a1 :: rest)).1 = Rc.ok ∧
      (vtab_update d (a0 :: a1 :: rest)).2.setter_calls = []) ∧
    (vtab_update d (a0 :: a1 :: rest)).2.delete_calls = [] ∧
    (vtab_update d (a0 :: a1 :: rest)).2.insert_calls = [] := by
  rw [vtab_update_update_eq d a0 a1 rest h0]
  dsimp only
  refine ⟨?_, ?_, rfl, rfl⟩
  · intro e he
    obtain ⟨_hk, hlc, hla, _hrow, col, f, hget, hwr, hset, _himp⟩ :=
      (updateLoop_spec (toSizeT (value_int64 a0)) d.columns rest 0).2.2.1 e he
    simp only [Nat.sub_zero] at hlc hla hget
    exact ⟨hlc, hla, col, hget, hwr, by rw [hset]; rfl⟩
  · intro hno
    rw [updateLoop_no_writable (toSizeT (value_int64 a0)) d.columns rest 0 hno]
    exact ⟨rfl, rfl⟩

/-- Witness for C10_theorem on `c10Def` (one read-only column) with a value
for the column plus one extra trailing value: success with no setter calls. -/
theorem C10_theorem_witness :
    (∀ e ∈ (vtab_update c10Def
        (SqlValue.int 0 :: SqlValue.int 0 ::
          [SqlValue.int 7, SqlValue.int 8])).2.setter_calls,
      e.1 < c10Def.columns.length ∧ e.1 < [SqlValue.int 7, SqlValue.int 8].length ∧
      ∃ col, c10Def.columns[e.1]? = some col ∧ col.writable = true ∧
        col.set.isSome = true) ∧
    ((∀ col ∈ c10Def.columns, ¬(col.writable = true ∧ col.set.isSome = true)) →
      (vtab_update c10Def
        (SqlValue.int 0 :: SqlValue.int 0 ::
          [SqlValue.int 7, SqlValue.int 8])).1 = Rc.ok ∧
      (vtab_update c10Def
        (SqlValue.int 0 :: SqlValue.int 0 ::
          [SqlValue.int 7, SqlValue.int 8])).2.setter_calls = []) ∧
    (vtab_update c10Def
        (SqlValue.int 0 :: SqlValue.int 0 ::
          [SqlValue.int 7, SqlValue.int 8])).2.delete_calls = [] ∧
    (vtab_update c10Def
        (SqlValue.int 0 :: SqlValue.int 0 ::
          [SqlValue.int 7, SqlValue.int 8])).2.insert_calls = [] :=
  C10_theorem c10Def (SqlValue.int 0) (SqlValue.int 0)
    [SqlValue.int 7, SqlValue.int 8] rfl

/-- The live planner's selection loop ignores the `row_count` field. -/
theorem liveBestLoop_row_count {σ : Type} (d : VTableDef σ) (n : Nat) :
    ∀ (l : List (Nat × ConstraintInfo)) (b : Option (FilterDef σ × Nat)),
    liveBestLoop { d with row_count := n } l b = liveBestLoop d l b := by
  intro l
  induction l with
  | nil => intro b; rfl
  | cons p rest ih =>
    intro b
    rcases p with ⟨i, con⟩
    unfold liveBestLoop
    dsimp only [VTableDef.find_filter]
    split
    · exact ih b
    · split
      · exact ih b
      · cases hf : d.filters.find? (fun f => f.column_index == con.iColumn)
        · exact ih b
        · dsimp only
          split
          · exact ih _
          · exact ih b

/-- When no usable equality constraint matches a registered filter, the live
planner's selection loop keeps the empty selection. -/
theorem liveBestLoop_none {σ : Type} (d : VTableDef σ) :
    ∀ (l : List (Nat × ConstraintInfo)),
    (∀ p ∈ l, p.2.usable = false ∨ p.2.op ≠ SQLITE_INDEX_CONSTRAINT_EQ ∨
      d.find_filter p.2.iColumn = none) →
    liveBestLoop d l none = none := by
  intro l
  induction l with
  | nil => intro _; rfl
  | cons p rest ih =>
    intro h
    rcases p with ⟨i, con⟩
    have hp := h (i, con) (List.mem_cons_self ..)
    have hrest := fun q hq => h q (List.mem_cons_of_mem _ hq)
    unfold liveBestLoop
    by_cases h1 : con.usable = false
    · rw [if_pos h1]
      exact ih hrest
    · rw [if_neg h1]
      by_cases h2 : con.op ≠ SQLITE_INDEX_CONSTRAINT_EQ
      · rw [if_pos h2]
        exact ih hrest
      · rw [if_neg h2]
        have hf : d.find_filter con.iColumn = none := by
          rcases hp with hp | hp | hp
          · exact absurd hp h1
          · exact absurd hp h2
          · exact hp
        rw [hf]
        exact ih hrest

/-- Claim C7: the live cursor's filter callback invokes the authoritative
`row_count` exactly once on the full-scan path and zero times on a
filter-iterator path (so at most once per filter invocation); the planner's
output is independent of `row_count` on *every* constraint list `consAny`,
including inputs where a usable equality constraint matches a filter (the
spec's motivating case) — so `row_count` is never invoked from the planner;
and on the full-scan plan (no usable EQ constraint with a registered filter,
hypothesis `h` on `cons`) the planner's estimate comes from `estimate_rows`,
defaulting to 100000. -/
theorem C7_theorem {σ : Type} (d : VTableDef σ) (c : Cursor σ) (idxNum : Int)
    (argv : List SqlValue) (n : Nat) (consAny cons : List ConstraintInfo)
    (h : ∀ con ∈ cons, con.usable = false ∨
      con.op ≠ SQLITE_INDEX_CONSTRAINT_EQ ∨ d.find_filter con.iColumn = none) :
    ((vtab_filter d c idxNum argv).2 =
      if idxNum ≠ FILTER_NONE ∧ argv ≠ [] ∧
          (d.filters.find? (fun f => f.filter_id == idxNum)).isSome
        then 0 else 1) ∧
    vtab_best_index { d with row_count := n } consAny =
      vtab_best_index d consAny ∧
    (vtab_best_index d cons).idxNum = FILTER_NONE ∧
    (vtab_best_index d cons).estimatedCost =
      ((d.estimate_rows.getD 100000 : Nat) : Rat) ∧
    (vtab_best_index d cons).estimatedRows =
      ((d.estimate_rows.getD 100000 : Nat) : Int) := by
  have henum : ∀ p ∈ cons.enum, p.2.usable = false ∨
      p.2.op ≠ SQLITE_INDEX_CONSTRAINT_EQ ∨
      d.find_filter p.2.iColumn = none := by
    intro p hp
    have hmem : p.2 ∈ cons := by
      rw [List.mem_enum_iff_getElem?] at hp
      exact List.getElem?_mem hp
    exact h p.2 hmem
  have hnone := liveBestLoop_none d cons.enum henum
  constructor
  · unfold vtab_filter
    by_cases h1 : idxNum ≠ FILTER_NONE ∧ argv ≠ []
    · rw [if_pos h1]
      cases hfind : d.filters.find? (fun f => f.filter_id == idxNum) with
      | none =>
        rw [if_neg]
        intro hcon
        simp at hcon
      | some filter =>
        rw [if_pos ⟨h1.1, h1.2, rfl⟩]
    · rw [if_neg h1, if_neg]
      intro hcon
      exact h1 ⟨hcon.1, hcon.2.1⟩
  · refine ⟨?_, ?_, ?_, ?_⟩
    · unfold vtab_best_index
      rw [liveBestLoop_row_count]
    · unfold vtab_best_index
      rw [hnone]
    · unfold vtab_best_index
      rw [hnone]
      cases d.estimate_rows <;> rfl
    · unfold vtab_best_index
      rw [hnone]
      cases d.estimate_rows <;> rfl

/-- Witness for C7_theorem: `c2Def` carries a filter on column 0; the filter
callback takes the filter path (idxNum 1), the independence conjunct is
instantiated at a constraint list whose usable equality constraint matches
that filter, and the full-scan conjuncts at the empty constraint list. -/
theorem C7_theorem_witness :
    ((vtab_filter c2Def vtab_open 1 [SqlValue.int 0]).2 =
      if (1 : Int) ≠ FILTER_NONE ∧ ([SqlValue.int 0] : List SqlValue) ≠ [] ∧
          (c2Def.filters.find? (fun f => f.filter_id == (1 : Int))).isSome
        then 0 else 1) ∧
    vtab_best_index { c2Def with row_count := 7 }
        [⟨true, SQLITE_INDEX_CONSTRAINT_EQ, 0⟩] =
      vtab_best_index c2Def [⟨true, SQLITE_INDEX_CONSTRAINT_EQ, 0⟩] ∧
    (vtab_best_index c2Def []).idxNum = FILTER_NONE ∧
    (vtab_best_index c2Def []).estimatedCost =
      ((c2Def.estimate_rows.getD 100000 : Nat) : Rat) ∧
    (vtab_best_index c2Def []).estimatedRows =
      ((c2Def.estimate_rows.getD 100000 : Nat) : Int) :=
  C7_theorem c2Def vtab_open 1 [SqlValue.int 0] 7
    [⟨true, SQLITE_INDEX_CONSTRAINT_EQ, 0⟩] []
    (by intro con hcon; simp at hcon)

end XSql
